import Mathlib

/-!
Shallow embedding of the Shopify <-> Odoo synchronization engine of
`models/shopify_sync.py` (model `shopify.sync`), together with theorems about
the reconciliation, failure-isolation, and watermark-advance behaviour.

Modelling conventions, applied throughout:

* The Odoo record store (an external collaborator of the sync engine) is a
  `Store` value holding the rows of the tables the engine touches
  (`product.category`, `res.partner`, `product.template`, `product.product`,
  `product.supplierinfo`, `sale.order`, `sale.order.line`, `account.move`,
  `res.users`) plus the `ir.config_parameter` keys the engine reads and
  writes.  `search(..., limit=1)` becomes `List.find?`, `create` appends a row
  carrying the next fresh id, `write` maps an update over the rows with the
  given id.  Store writes never fail in the model, so the source's fallback
  branches for database errors are unreachable here.
* ISO-8601 timestamps are totally ordered and the code only ever compares
  them, takes maxima, converts between equivalent renderings, and adds one
  second; they are modelled as `Nat` seconds, with the string/`datetime`
  conversions (which preserve the instant) modelled as the identity.
* Python `float(...)` applied to Shopify decimal strings is modelled as
  `parseDecimal : String -> Option Rat`; a `none` result corresponds to the
  `ValueError` that `float` raises on a malformed string.
* Exceptions are modelled by `Except String`; an `Except.error` escaping a
  function corresponds to an exception propagating out of it.
* HTTP fetches and searches performed at batch level are passed in as
  `Except String ...` arguments: the `.error` case corresponds to the request
  or database call raising.
* `_log_sync_message` appends to the `sync_log` field of the singleton
  `shopify.sync` record, a database field; it is the `sync_log` list of
  `Store`.  The process-level `_logger` calls that survive transaction
  rollbacks are modelled by the `BatchEvent` lists the batch loops return.
-/

namespace Odoofy

/-- Boolean list-prefix test on characters. -/
def isPrefixCharList : List Char → List Char → Bool
  | [], _ => true
  | _ :: _, [] => false
  | c :: cs, d :: ds => c == d && isPrefixCharList cs ds

/-- Python `str.startswith` / the SQL `LIKE 'pre%'` test the source uses on
`default_code` values. -/
def strStartsWith (s pre : String) : Bool := isPrefixCharList pre.data s.data

/-- Value of a non-empty all-digit character list, `none` otherwise. -/
def charsToNatAux : List Char → Nat → Option Nat
  | [], acc => some acc
  | c :: rest, acc =>
      if c.isDigit then charsToNatAux rest (acc * 10 + (c.toNat - 48)) else none

/-- Value of a non-empty all-digit character list, `none` otherwise. -/
def charsToNat? : List Char → Option Nat
  | [] => none
  | cs => charsToNatAux cs 0

/-- Split a character list at its first `'.'`: the part before it and,
when a dot occurs, the part after it. -/
def splitDot : List Char → List Char × Option (List Char)
  | [] => ([], none)
  | c :: rest =>
      if c = '.' then ([], some rest)
      else
        let r := splitDot rest
        (c :: r.1, r.2)

/-- Python `float(s)` on the decimal strings Shopify sends (`"9.99"`,
`"12.50"`, ...): an integer part, optionally a dot and a fractional part,
all digits.  `none` models the `ValueError` raised on a malformed string
such as `"invalid_price"`.  (Python also accepts signs, exponents and a
missing side around the dot; those never occur in the price fields, and
rejecting them only makes the model raise where the source would too on the
payloads considered.) -/
def parseDecimal (s : String) : Option Rat :=
  let r := splitDot s.data
  match r.2 with
  | none => (charsToNat? r.1).map (fun n => (n : Rat))
  | some frac =>
    match charsToNat? r.1, charsToNat? frac with
    | some wn, some fn => some (mkRat (wn * 10 ^ frac.length + fn) (10 ^ frac.length))
    | _, _ => none

/-- A Shopify product variant as fetched from `GET /products.json`
(fields read by `_save_product_variant`). -/
structure RemoteVariant where
  id : Nat
  price : String := "0"
  compare_at_price : Option String := none
  barcode : Option String := none
  deriving DecidableEq, Repr

/-- A Shopify product as fetched from `GET /products.json` (fields read by
`_save_single_product` and `auto_sync_shopify_products`).  `updated_at` is
the parsed ISO-8601 timestamp. -/
structure RemoteProduct where
  id : Nat
  title : String
  product_type : Option String := none
  vendor : Option String := none
  status : String := "active"
  body_html : Option String := none
  variants : List RemoteVariant := []
  updated_at : Nat := 0
  deriving DecidableEq, Repr

/-- The `customer` object embedded in a Shopify order payload. -/
structure RemoteCustomer where
  email : Option String := none
  first_name : String := ""
  last_name : String := ""
  phone : Option String := none
  deriving DecidableEq, Repr

/-- A line item of a Shopify order.  `id` is the line item's own id;
`variant_id` is the id of the purchased variant; both are present in the
payload (`_create_order_line` reads `id`, `sku` and the descriptive
fields). -/
structure RemoteLineItem where
  id : Nat
  variant_id : Option Nat := none
  sku : Option String := none
  title : String := ""
  quantity : Nat := 1
  price : String := "0"
  deriving DecidableEq, Repr

/-- A Shopify order as fetched from `GET /orders.json` (fields read by
`_save_single_order` and `auto_sync_shopify_orders`). -/
structure RemoteOrder where
  id : Nat
  name : String := ""
  email : Option String := none
  customer : Option RemoteCustomer := none
  financial_status : String := ""
  line_items : List RemoteLineItem := []
  currency : String := "USD"
  updated_at : Nat := 0
  deriving DecidableEq, Repr

/-- A `product.category` row. -/
structure Category where
  id : Nat
  name : String
  deriving DecidableEq, Repr

/-- A `res.partner` row (used both for vendors and for customers). -/
structure Partner where
  id : Nat
  name : String
  email : Option String := none
  phone : Option String := none
  is_company : Bool := false
  supplier_rank : Nat := 0
  customer_rank : Nat := 0
  deriving DecidableEq, Repr

/-- A `product.template` row, restricted to the fields the sync engine reads
or writes.  `default_code` is the field carrying the external-id tag. -/
structure ProductTemplate where
  id : Nat
  name : String
  default_code : Option String := none
  categ_id : Nat := 0
  sale_ok : Bool := true
  purchase_ok : Bool := false
  is_published : Bool := false
  description_html : Option String := none
  x_shopify_updated_at : Option Nat := none
  x_shopify_synced_at : Option Nat := none
  route_ids : List Nat := []
  write_date : Nat := 0
  deriving DecidableEq, Repr

/-- A `product.product` (variant) row. -/
structure ProductVariantRec where
  id : Nat
  product_tmpl_id : Nat
  default_code : Option String := none
  list_price : Rat := 0
  standard_price : Rat := 0
  barcode : Option String := none
  deriving DecidableEq, Repr

/-- A `product.supplierinfo` row: one vendor link of a product template. -/
structure SupplierInfo where
  id : Nat
  partner_id : Nat
  product_tmpl_id : Nat
  min_qty : Rat := 1
  price : Rat := 0
  deriving DecidableEq, Repr

/-- A `sale.order` row.  `name` is the sequence-assigned order reference and
`client_order_ref` carries the external-id tag. -/
structure SaleOrder where
  id : Nat
  name : String
  partner_id : Nat
  client_order_ref : String
  origin : String := ""
  state : String := "draft"
  currency : String := "USD"
  deriving DecidableEq, Repr

/-- A `sale.order.line` row. -/
structure SaleOrderLine where
  id : Nat
  order_id : Nat
  product_id : Option Nat := none
  name : String := ""
  product_uom_qty : Rat := 1
  price_unit : Rat := 0
  deriving DecidableEq, Repr

/-- One invoice line of an `account.move`, as created by the
`invoice_line_ids` one2many commands in `_save_single_order`. -/
structure InvoiceLine where
  name : String
  quantity : Rat
  price_unit : Rat
  product_id : Option Nat
  sale_line_ids : List Nat
  deriving DecidableEq, Repr

/-- An `account.move` (customer invoice) row.  `posted` models
`action_post`, `sent` models `action_invoice_sent`. -/
structure AccountMove where
  id : Nat
  partner_id : Nat
  invoice_origin : String
  posted : Bool := false
  sent : Bool := false
  lines : List InvoiceLine := []
  deriving DecidableEq, Repr

/-- A `res.users` row (portal users created by the paid-order pipeline). -/
structure PortalUser where
  id : Nat
  partner_id : Nat
  active : Bool := true
  deriving DecidableEq, Repr

/-- The `ir.config_parameter` keys the sync engine reads and writes.  The
boolean feature flags store the truthiness the source tests
(`shopify.auto_publish_website`, `odoofy.send_invoice_on_payment`,
`odoofy.create_user_portal`); the watermark keys hold parsed timestamps,
`none` when the key is unset. -/
structure SyncConfig where
  auto_publish_website : Bool := false
  send_invoice_on_payment : Bool := false
  create_user_portal : Bool := false
  products_last_updated_at : Option Nat := none
  orders_last_updated_at : Option Nat := none
  last_odoo_to_shopify_sync : Option Nat := none
  deriving DecidableEq, Repr

/-- The reachable state of the business-record store plus the configuration
key-value store and the singleton `shopify.sync` record's `sync_status` and
`sync_log` fields.  `nextId` is the id the next created row receives (one
shared sequence across tables, which keeps ids unique; the engine never
relies on ids of different tables being related).  `dropship_route_id` models
`env.ref('stock_dropshipping.route_drop_shipping', raise_if_not_found=False)`:
`none` when the module is not installed. -/
structure Store where
  nextId : Nat := 1
  categories : List Category := []
  partners : List Partner := []
  templates : List ProductTemplate := []
  variants : List ProductVariantRec := []
  suppliers : List SupplierInfo := []
  orders : List SaleOrder := []
  orderLines : List SaleOrderLine := []
  invoices : List AccountMove := []
  users : List PortalUser := []
  config : SyncConfig := {}
  dropship_route_id : Option Nat := none
  sync_status : String := "idle"
  sync_log : List (String × String) := []
  deriving DecidableEq, Repr

/-- The external-id tag a product template derives from a Shopify product id:
the string interpolation in the source. -/
def productTag (shopifyId : Nat) : String := "SHOPIFY_" ++ toString shopifyId

/-- The external-id tag a product variant derives from a Shopify variant id. -/
def variantTag (shopifyVariantId : Nat) : String := "SHOPIFY_VAR_" ++ toString shopifyVariantId

/-- Append a `_log_sync_message(message, level)` entry to the singleton sync
record's `sync_log` field (a database write, so it takes part in
rollbacks). -/
def Store.log (st : Store) (level message : String) : Store :=
  { st with sync_log := st.sync_log ++ [(level, message)] }

/-- The `write(vals)` operation on a `product.template` row, applied to every
row carrying the given id. -/
def Store.writeTemplate (st : Store) (tid : Nat) (f : ProductTemplate → ProductTemplate) : Store :=
  { st with templates := st.templates.map (fun t => if t.id = tid then f t else t) }

/-- The `write(vals)` operation on a `product.product` row. -/
def Store.writeVariant (st : Store) (vid : Nat) (f : ProductVariantRec → ProductVariantRec) : Store :=
  { st with variants := st.variants.map (fun pv => if pv.id = vid then f pv else pv) }

/-- The `write(vals)` operation on a `sale.order` row. -/
def Store.writeOrder (st : Store) (oid : Nat) (f : SaleOrder → SaleOrder) : Store :=
  { st with orders := st.orders.map (fun so => if so.id = oid then f so else so) }

/-- The `write(vals)` operation on an `account.move` row. -/
def Store.writeInvoice (st : Store) (iid : Nat) (f : AccountMove → AccountMove) : Store :=
  { st with invoices := st.invoices.map (fun inv => if inv.id = iid then f inv else inv) }

/-- The `write(vals)` operation on a `res.users` row. -/
def Store.writeUser (st : Store) (uid : Nat) (f : PortalUser → PortalUser) : Store :=
  { st with users := st.users.map (fun u => if u.id = uid then f u else u) }

/-- Lines 487-491 of `_save_single_product`: get or create the
`product.category` named after the remote `product_type` (exact name match,
global scope). -/
def getOrCreateCategory (st : Store) (name : String) : Store × Nat :=
  match st.categories.find? (fun c => c.name == name) with
  | some c => (st, c.id)
  | none =>
      let cid := st.nextId
      ({ st with nextId := cid + 1,
                 categories := st.categories ++ [{ id := cid, name := name }] }, cid)

/-- Lines 493-507 of `_save_single_product`: get or create the vendor
`res.partner` (exact name match among company partners with positive supplier
rank). -/
def getOrCreateVendor (st : Store) (vendorName : String) : Store × Nat :=
  match st.partners.find? (fun pr =>
      pr.name == vendorName && pr.is_company && decide (0 < pr.supplier_rank)) with
  | some pr => (st, pr.id)
  | none =>
      let pid := st.nextId
      ({ st with nextId := pid + 1,
                 partners := st.partners ++
                   [{ id := pid, name := vendorName, is_company := true, supplier_rank := 1 }] }, pid)

/-- Outcome of the create-vs-update-vs-skip decision of
`_save_single_product` (lines 509-544). -/
inductive Resolution where
  | update (t : ProductTemplate)
  | adopt (t : ProductTemplate)
  | skipCollision (t : ProductTemplate)
  | create
  deriving DecidableEq, Repr

/-- Lines 509-539 of `_save_single_product`: resolve the target local record
for a remote product.  First search `default_code = "SHOPIFY_<id>"`; else
search same `name` with `default_code = False` (adopt); else search same
`name` with a `SHOPIFY_`-prefixed `default_code` different from the derived
tag (skip); else create. -/
def resolveTemplate (st : Store) (p : RemoteProduct) : Resolution :=
  match st.templates.find? (fun t => t.default_code == some (productTag p.id)) with
  | some t => .update t
  | none =>
    match st.templates.find? (fun t => t.name == p.title && t.default_code == none) with
    | some t => .adopt t
    | none =>
      match st.templates.find? (fun t =>
          t.name == p.title &&
          (match t.default_code with
           | some c => strStartsWith c "SHOPIFY_" && c != productTag p.id
           | none => false)) with
      | some t => .skipCollision t
      | none => .create

/-- The `template_vals` dictionary built by `_save_single_product`
(lines 546-632).  `seller_partner_id` models the one2many create command put
into `seller_ids` for new products; `route_ids` models the `(6, 0, ids)`
replace command, present only when the dropshipping block added it. -/
structure TemplateVals where
  name : String
  default_code : String
  categ_id : Nat
  sale_ok : Bool := true
  purchase_ok : Bool
  is_published : Bool
  description_html : Option String
  x_shopify_updated_at : Option Nat
  seller_partner_id : Option Nat := none
  route_ids : Option (List Nat) := none
  deriving DecidableEq, Repr

/-- Apply `template_vals` as a `write` on an existing template row (the
`seller_ids` command never occurs in the update branch). -/
def TemplateVals.applyTo (v : TemplateVals) (t : ProductTemplate) : ProductTemplate :=
  { t with name := v.name, default_code := some v.default_code, categ_id := v.categ_id,
           sale_ok := v.sale_ok, purchase_ok := v.purchase_ok, is_published := v.is_published,
           description_html := v.description_html,
           x_shopify_updated_at := v.x_shopify_updated_at,
           route_ids := match v.route_ids with | some rs => rs | none => t.route_ids }

/-- Apply `template_vals` as a `create`, together with the `seller_ids`
one2many command when present.  Returns the new template's id. -/
def Store.createTemplateFromVals (st : Store) (v : TemplateVals) : Store × Nat :=
  let tid := st.nextId
  let t : ProductTemplate :=
    { id := tid, name := v.name, default_code := some v.default_code, categ_id := v.categ_id,
      sale_ok := v.sale_ok, purchase_ok := v.purchase_ok, is_published := v.is_published,
      description_html := v.description_html, x_shopify_updated_at := v.x_shopify_updated_at,
      route_ids := v.route_ids.getD [] }
  let st1 := { st with nextId := tid + 1, templates := st.templates ++ [t] }
  match v.seller_partner_id with
  | some pid =>
      let sid := st1.nextId
      ({ st1 with nextId := sid + 1,
                  suppliers := st1.suppliers ++
                    [{ id := sid, partner_id := pid, product_tmpl_id := tid,
                       min_qty := 1, price := 0 }] }, tid)
  | none => (st1, tid)

/-- The `variant_vals` dictionary of `_save_product_variant` (lines 913-928).
The `barcode` key is present only when the barcode was safe to assign. -/
structure VariantVals where
  default_code : String
  list_price : Rat
  standard_price : Rat
  barcode : Option String := none
  deriving DecidableEq, Repr

/-- Apply `variant_vals` as a `write` on an existing variant row; an absent
`barcode` key leaves the stored barcode untouched. -/
def VariantVals.applyTo (v : VariantVals) (pv : ProductVariantRec) : ProductVariantRec :=
  { pv with default_code := some v.default_code, list_price := v.list_price,
            standard_price := v.standard_price,
            barcode := match v.barcode with | some b => some b | none => pv.barcode }

/-- Apply `variant_vals` as a `create` with `product_tmpl_id` set. -/
def Store.createVariantFromVals (st : Store) (tmplId : Nat) (v : VariantVals) : Store × Nat :=
  let vid := st.nextId
  ({ st with nextId := vid + 1,
             variants := st.variants ++
               [{ id := vid, product_tmpl_id := tmplId, default_code := some v.default_code,
                  list_price := v.list_price, standard_price := v.standard_price,
                  barcode := v.barcode }] }, vid)

/-- Embedding of `_save_product_variant` (lines 874-1040).  Attribute
pre-processing (`_process_variant_attributes_safe`) only creates
attribute/value rows, is wrapped in a catch-all `except`, and is not
modelled; the inventory update at the end (`_update_product_inventory`) is
likewise wrapped in a catch-all `except` and not modelled.  The source's
fallback arms for failing database writes are unreachable because the
modelled store's writes are total.  The only modelled exception is the
`ValueError` from `float(...)` on a malformed price string, which the source
raises while building `variant_vals`. -/
def saveProductVariant (st : Store) (tmplId : Nat) (v : RemoteVariant) :
    Except String (Store × Nat) :=
  let existing := st.variants.find? (fun pv => pv.default_code == some (variantTag v.id))
  let barcode_to_use : Option String :=
    match v.barcode with
    | some bc =>
        if bc != "" then
          match st.variants.find? (fun pv =>
              pv.barcode == some bc &&
              pv.id != (match existing with | some ev => ev.id | none => 0)) with
          | some _ => none
          | none => some bc
        else none
    | none => none
  match parseDecimal v.price with
  | none => .error ("could not convert string to float: " ++ v.price)
  | some price =>
    let stdRes : Except String Rat :=
      match v.compare_at_price with
      | some cap =>
          if cap != "" then
            match parseDecimal cap with
            | some r => .ok r
            | none => .error ("could not convert string to float: " ++ cap)
          else .ok price
      | none => .ok price
    match stdRes with
    | .error e => .error e
    | .ok std =>
      let vals : VariantVals :=
        { default_code := variantTag v.id, list_price := price, standard_price := std,
          barcode := barcode_to_use }
      match existing with
      | some ev =>
        if ev.product_tmpl_id == tmplId then
          .ok (st.writeVariant ev.id vals.applyTo, ev.id)
        else
          match st.variants.find? (fun pv =>
              pv.product_tmpl_id == tmplId && pv.default_code == none) with
          | some tv => .ok (st.writeVariant tv.id vals.applyTo, tv.id)
          | none =>
            match st.variants.find? (fun pv => pv.product_tmpl_id == tmplId) with
            | some tv => .ok (st.writeVariant tv.id vals.applyTo, tv.id)
            | none => .ok (st.createVariantFromVals tmplId vals)
      | none =>
        match st.variants.find? (fun pv => pv.product_tmpl_id == tmplId) with
        | some tv => .ok (st.writeVariant tv.id vals.applyTo, tv.id)
        | none => .ok (st.createVariantFromVals tmplId vals)

/-- The variant loop of `_save_single_product` (lines 683-689): save each
remote variant in order, collecting the resulting variant ids; an exception
from one variant aborts the whole product. -/
def saveVariantsList (st : Store) (tmplId : Nat) :
    List RemoteVariant → Except String (Store × List Nat)
  | [] => .ok (st, [])
  | v :: rest =>
    match saveProductVariant st tmplId v with
    | .error e => .error e
    | .ok (st1, vid) =>
      match saveVariantsList st1 tmplId rest with
      | .error e => .error e
      | .ok (st2, ids) => .ok (st2, vid :: ids)

/-- Embedding of `_verify_variant_linkage` (lines 1042-1064): re-attach any
created variant that is not linked to the template. -/
def verifyVariantLinkage (st : Store) (tmplId : Nat) : List Nat → Store
  | [] => st
  | vid :: rest =>
    let st1 :=
      match st.variants.find? (fun pv => pv.id == vid) with
      | some pv =>
          if pv.product_tmpl_id != tmplId then
            st.writeVariant vid (fun q => { q with product_tmpl_id := tmplId })
          else st
      | none => st
    verifyVariantLinkage st1 tmplId rest

/-- Tail of `_save_single_product` after the template write/create
(lines 683-699): handle variants, verify linkage.  The image block
(lines 694-697, `_save_product_images`) downloads binary image data inside a
catch-all `except` and is not modelled. -/
def finishProductSave (st : Store) (tmplId : Nat) (p : RemoteProduct) : Except String Store :=
  match saveVariantsList st tmplId p.variants with
  | .error e => .error e
  | .ok (st1, createdIds) => .ok (verifyVariantLinkage st1 tmplId createdIds)

/-- Middle of `_save_single_product` (lines 541-681): build `template_vals`,
write or create the template, and add the vendor link for existing
templates.  `existingTemplate` is the resolved target (`none` on the create
path). -/
def saveResolvedProduct (st3 : Store) (p : RemoteProduct) (categId : Nat)
    (vendorId : Option Nat) (existingTemplate : Option ProductTemplate) :
    Except String Store :=
  let vendor_already_exists : Bool :=
    match vendorId, existingTemplate with
    | some vid, some t =>
        !(st3.suppliers.filter (fun s =>
            s.product_tmpl_id == t.id && s.partner_id == vid)).isEmpty
    | _, _ => false
  let publish : Bool :=
    if st3.config.auto_publish_website then p.status == "active" else false
  let sellerCmd : Option Nat :=
    match vendorId with
    | some vid =>
        if !vendor_already_exists && existingTemplate.isNone then some vid else none
    | none => none
  let routeVals : Option (List Nat) :=
    match vendorId with
    | none => none
    | some _ =>
      match st3.dropship_route_id with
      | none => none
      | some rid =>
        let already : Bool :=
          match existingTemplate with
          | some t => t.route_ids.contains rid
          | none => false
        if !already then
          let existingRoutes := match existingTemplate with
            | some t => t.route_ids
            | none => []
          some (if existingRoutes.contains rid then existingRoutes
                else existingRoutes ++ [rid])
        else none
  let vals : TemplateVals :=
    { name := p.title, default_code := productTag p.id, categ_id := categId,
      sale_ok := true, purchase_ok := vendorId.isSome, is_published := publish,
      description_html := p.body_html, x_shopify_updated_at := some p.updated_at,
      seller_partner_id := sellerCmd, route_ids := routeVals }
  match existingTemplate with
  | some t =>
      let st4 := st3.writeTemplate t.id vals.applyTo
      let st5 :=
        match vendorId with
        | some vid =>
          if !vendor_already_exists then
            match st4.suppliers.find? (fun s =>
                s.partner_id == vid && s.product_tmpl_id == t.id) with
            | some _ => st4
            | none =>
                let sid := st4.nextId
                { st4 with nextId := sid + 1,
                           suppliers := st4.suppliers ++
                             [{ id := sid, partner_id := vid, product_tmpl_id := t.id,
                                min_qty := 1, price := 0 }] }
          else st4
        | none => st4
      finishProductSave st5 t.id p
  | none =>
      let r := st3.createTemplateFromVals vals
      finishProductSave r.1 r.2 p

/-- The category name of `_save_single_product`, line 488:
`shopify_product.get('product_type') or 'Uncategorized'`. -/
def categNameOf (p : RemoteProduct) : String :=
  match p.product_type with
  | some s => if s != "" then s else "Uncategorized"
  | none => "Uncategorized"

/-- The vendor name of `_save_single_product`, line 494: the `vendor` payload
field when truthy. -/
def vendorNameOf (p : RemoteProduct) : Option String :=
  match p.vendor with
  | some s => if s != "" then some s else none
  | none => none

/-- Lines 487-507 of `_save_single_product`: create or find the category and
the vendor rows (both happen before the template resolution).  Returns the
category id and, when the payload names a vendor, the vendor's partner id. -/
def createCategoryAndVendor (st : Store) (p : RemoteProduct) : Store × Nat × Option Nat :=
  let rc := getOrCreateCategory st (categNameOf p)
  match vendorNameOf p with
  | some vn =>
      let rv := getOrCreateVendor rc.1 vn
      (rv.1, rc.2, some rv.2)
  | none => (rc.1, rc.2, none)

/-- Embedding of `_save_single_product` (lines 485-699).  Category and vendor
rows are created before the resolution, so even a skipped product leaves
them behind, as in the source. -/
def saveSingleProduct (st0 : Store) (p : RemoteProduct) : Except String Store :=
  let r := createCategoryAndVendor st0 p
  let st2 := r.1
  let categId := r.2.1
  let vendorId := r.2.2
  match resolveTemplate st2 p with
  | .skipCollision _ =>
      .ok ((st2.log "warning"
              ("Product with same name but different Shopify ID already exists: " ++ p.title)).log
            "info" ("Skipping product " ++ p.title ++ " to avoid duplicate creation"))
  | .update t => saveResolvedProduct st2 p categId vendorId (some t)
  | .adopt t =>
      let st3 := st2.writeTemplate t.id
        (fun tt => { tt with default_code := some (productTag p.id) })
      saveResolvedProduct st3 p categId vendorId
        (some { t with default_code := some (productTag p.id) })
  | .create => saveResolvedProduct st2 p categId vendorId none

/-- Process-level logger output of the batch loops (the `_logger` calls that,
unlike `sync_log`, survive a transaction rollback). -/
inductive BatchEvent where
  | processed (key : String)
  | skippedDuplicate (key : String)
  | failed (key : String) (title : String) (err : String)
  deriving DecidableEq, Repr

/-- The loop body of `save_products_to_odoo` (lines 460-483).  `txnStart` is
the state of the transaction's last commit point, i.e. the store at batch
entry (the auto-sync flow commits nothing between records).  A duplicate
Shopify id within the batch is skipped with a warning.  On an exception the
savepoint unwinds the failing product's writes and then the handler calls
`self.env.cr.rollback()` (line 480), a full transaction rollback that resets
the store to `txnStart` — including the `sync_log` entry the handler itself
just wrote, which the model therefore does not keep; the surviving
process-level log is the `failed` event. -/
def saveProductsLoop (txnStart : Store) (cur : Store) (processedIds : List String) :
    List RemoteProduct → Store × List BatchEvent
  | [] => (cur, [])
  | p :: rest =>
    let shopify_id := toString p.id
    if shopify_id ∈ processedIds then
      let cur1 := cur.log "warning"
        ("Skipping duplicate product in same sync batch: " ++ p.title)
      let r := saveProductsLoop txnStart cur1 processedIds rest
      (r.1, .skippedDuplicate shopify_id :: r.2)
    else
      match saveSingleProduct cur p with
      | .ok st1 =>
          let r := saveProductsLoop txnStart st1 (shopify_id :: processedIds) rest
          (r.1, .processed shopify_id :: r.2)
      | .error e =>
          let r := saveProductsLoop txnStart txnStart (shopify_id :: processedIds) rest
          (r.1, .failed shopify_id p.title e :: r.2)

/-- Embedding of `save_products_to_odoo` (lines 460-483): run the per-record
loop with an empty processed-id set, the batch-entry store being the
transaction's last commit point. -/
def save_products_to_odoo (st : Store) (products : List RemoteProduct) :
    Store × List BatchEvent :=
  saveProductsLoop st st [] products

/-- Lines 1489-1532, `_get_or_create_customer`: resolve or create the
customer partner for an order.  An order without a usable email gets an
anonymous customer named after the order; otherwise the partner is found by
exact email match or created.  The shipping-address columns
(street/city/zip/country/state, lines 1520-1530) are plain field writes on
the created partner and are not modelled. -/
def getOrCreateCustomer (st : Store) (o : RemoteOrder) : Store × Nat :=
  let customer_data := o.customer.getD {}
  let email : Option String :=
    match customer_data.email with
    | some e =>
        if e != "" then some e
        else match o.email with
             | some e2 => if e2 != "" then some e2 else none
             | none => none
    | none =>
        match o.email with
        | some e2 => if e2 != "" then some e2 else none
        | none => none
  match email with
  | none =>
      let pid := st.nextId
      ({ st with nextId := pid + 1,
                 partners := st.partners ++
                   [{ id := pid, name := o.name, is_company := false, customer_rank := 1 }] },
       pid)
  | some em =>
    match st.partners.find? (fun pr => pr.email == some em) with
    | some pr => (st, pr.id)
    | none =>
        let fullName := (customer_data.first_name ++ " " ++ customer_data.last_name).trim
        let nm := if fullName != "" then fullName else em
        let pid := st.nextId
        ({ st with nextId := pid + 1,
                   partners := st.partners ++
                     [{ id := pid, name := nm, email := some em, phone := customer_data.phone,
                        is_company := false, customer_rank := 1 }] }, pid)

/-- Embedding of `_create_order_line` (lines 1534-1567).  The source names
its lookup key `variant_id` but reads the line item's own `id` field
(line 1537, `variant_id = line_item.get('id')`); the payload's `variant_id`
field is never read, and the `sku` variable is read but never used.  When no
variant carries the derived tag, a product-less line is created with the
line item's title, quantity and price. -/
def createOrderLine (st : Store) (orderId : Nat) (li : RemoteLineItem) :
    Except String (Store × Nat) :=
  let variant_id := li.id
  let product := st.variants.find? (fun pv => pv.default_code == some (variantTag variant_id))
  let product : Option ProductVariantRec :=
    match product with
    | none =>
        -- line 1546 repeats the identical search when the first found nothing
        st.variants.find? (fun pv => pv.default_code == some (variantTag variant_id))
    | some pv => some pv
  match parseDecimal li.price with
  | none => .error ("could not convert string to float: " ++ li.price)
  | some priceUnit =>
    let lineId := st.nextId
    let line : SaleOrderLine :=
      { id := lineId, order_id := orderId, product_id := product.map (·.id),
        name := li.title, product_uom_qty := (li.quantity : Rat), price_unit := priceUnit }
    .ok ({ st with nextId := lineId + 1, orderLines := st.orderLines ++ [line] }, lineId)

/-- The line-item loop of `_save_single_order` (lines 1380-1382): one order
line per remote line item, an exception aborting the whole order. -/
def createOrderLines (st : Store) (orderId : Nat) :
    List RemoteLineItem → Except String Store
  | [] => .ok st
  | li :: rest =>
    match createOrderLine st orderId li with
    | .error e => .error e
    | .ok (st1, _) => createOrderLines st1 orderId rest

/-- One invoice line built from a sale order line by the `invoice_line_ids`
commands of `_save_single_order` (lines 1401-1408; the `tax_ids` command
copies tax links, which are not modelled). -/
def invoiceLineOfOrderLine (l : SaleOrderLine) : InvoiceLine :=
  { name := l.name, quantity := l.product_uom_qty, price_unit := l.price_unit,
    product_id := l.product_id, sale_line_ids := [l.id] }

/-- The invoice record the paid-order pipeline leaves behind: posted, sent
according to the notification flag, mirroring the order's lines. -/
def mirroredInvoice (st : Store) (oid pid : Nat) (onm : String) (sentFlag : Bool) : AccountMove :=
  { id := st.nextId, partner_id := pid, invoice_origin := onm, posted := true,
    sent := sentFlag,
    lines := (st.orderLines.filter (fun l => l.order_id == oid)).map invoiceLineOfOrderLine }

/-- Lines 1448-1478: search the portal user of the order's partner; create an
active one when none exists, re-activate an inactive one.  The welcome-email
dispatch (lines 1469-1475) and the login/password fields of the created user
are mail and credential side effects outside the record model. -/
def activatePortalUser (st : Store) (partnerId : Nat) : Store :=
  match st.users.find? (fun u => u.partner_id == partnerId) with
  | none =>
      let uid := st.nextId
      { st with nextId := uid + 1,
                users := st.users ++ [{ id := uid, partner_id := partnerId, active := true }] }
  | some u =>
      if !u.active then st.writeUser u.id (fun uu => { uu with active := true }) else st

/-- Line 1390, `action_confirm`: the created order moves to state `sale`. -/
def confirmOrder (st : Store) (orderId : Nat) : Store :=
  st.writeOrder orderId (fun so => { so with state := "sale" })

/-- Lines 1394-1409: create the invoice whose `invoice_line_ids` commands
mirror the sale order's lines.  Returns the new invoice's id. -/
def createInvoiceForOrder (st : Store) (orderId partnerId : Nat) (orderName : String) :
    Store × Nat :=
  let lines := st.orderLines.filter (fun l => l.order_id == orderId)
  let iid := st.nextId
  ({ st with nextId := iid + 1,
             invoices := st.invoices ++
               [{ id := iid, partner_id := partnerId, invoice_origin := orderName,
                  posted := false, sent := false,
                  lines := lines.map invoiceLineOfOrderLine }] }, iid)

/-- Lines 1384-1483 of `_save_single_order`: the financial-status dispatch
applied to a just-created sale order.  `cancelled` cancels it; `paid`
confirms it, creates an invoice whose lines mirror the order's lines, posts
it (`action_post`), and runs the flag-gated notification
(`action_invoice_sent`, lines 1437-1446) and portal (lines 1448-1478) side
effects; `partially_paid` and anything else only log.  `partnerId` and
`orderName` are the created order's fields, which no step of the pipeline
before their use modifies. -/
def applyFinancialStatus (st : Store) (orderId partnerId : Nat) (orderName : String)
    (o : RemoteOrder) : Store :=
  if o.financial_status == "cancelled" then
    (st.writeOrder orderId (fun so => { so with state := "cancel" })).log "info"
      ("Order " ++ o.name ++ " is cancelled, setting to cancel state.")
  else if o.financial_status == "paid" then
    let st1 := confirmOrder st orderId
    let r := createInvoiceForOrder st1 orderId partnerId orderName
    let st3 := r.1.writeInvoice r.2 (fun i => { i with posted := true })
    let st4 :=
      if st3.config.send_invoice_on_payment then
        st3.writeInvoice r.2 (fun i => { i with sent := true })
      else
        st3.log "info" ("Invoice not sent for order: " ++ o.name ++ " due to configuration")
    if st4.config.create_user_portal then activatePortalUser st4 partnerId else st4
  else if o.financial_status == "partially_paid" then
    st.log "info" ("Order " ++ o.name ++ " is partially paid, invoice will not be created.")
  else
    st.log "info" ("Order " ++ o.name ++ " is not paid, invoice will not be created.")

/-- Embedding of `_save_single_order` (lines 1329-1487).  The lookup excludes
cancelled orders (`state != 'cancel'`, line 1335); a match is returned
unchanged.  Otherwise customer, order header (state `draft`), and one line
per line item are created, and the financial-status dispatch runs.  The
`date_order` conversion (lines 1346-1366) writes a date column not otherwise
read by the engine and is not modelled; the currency is kept as the payload
code (`_get_currency_id` resolves it against `res.currency`). -/
def saveSingleOrder (st : Store) (o : RemoteOrder) : Except String (Store × Nat) :=
  match st.orders.find? (fun so =>
      so.client_order_ref == productTag o.id && so.state != "cancel") with
  | some ex => .ok (st.log "info" ("Order " ++ o.name ++ " already exists, skipping"), ex.id)
  | none =>
    let r := getOrCreateCustomer st o
    let st1 := r.1
    let partnerId := r.2
    let orderId := st1.nextId
    let orderName := "S" ++ toString orderId
    let so : SaleOrder :=
      { id := orderId, name := orderName, partner_id := partnerId,
        client_order_ref := productTag o.id, origin := o.name, state := "draft",
        currency := o.currency }
    let st2 := { st1 with nextId := orderId + 1, orders := st1.orders ++ [so] }
    match createOrderLines st2 orderId o.line_items with
    | .error e => .error e
    | .ok st3 => .ok (applyFinancialStatus st3 orderId partnerId orderName o, orderId)

/-- The loop body of `save_orders_to_odoo` (lines 1311-1327): one savepoint
per order; on an exception only that order's writes are unwound (no full
rollback here, unlike the products loop) and the error is logged. -/
def saveOrdersLoop (cur : Store) : List RemoteOrder → Store × Nat × List BatchEvent
  | [] => (cur, 0, [])
  | o :: rest =>
    match saveSingleOrder cur o with
    | .ok (st1, _) =>
        let r := saveOrdersLoop st1 rest
        (r.1, r.2.1 + 1, .processed o.name :: r.2.2)
    | .error e =>
        let cur1 := cur.log "error" ("Error saving order " ++ o.name ++ ": " ++ e)
        let r := saveOrdersLoop cur1 rest
        (r.1, r.2.1, .failed (toString o.id) o.name e :: r.2.2)

/-- Embedding of `save_orders_to_odoo` (lines 1311-1327), returning the
success count alongside the store and the process-level events. -/
def save_orders_to_odoo (st : Store) (orders : List RemoteOrder) :
    Store × Nat × List BatchEvent :=
  let r := saveOrdersLoop st orders
  (if r.2.1 == orders.length then
     r.1.log "info" "Successfully synced all orders in this batch"
   else
     r.1.log "warning" "Successfully synced only part of the orders in this batch",
   r.2.1, r.2.2)

/-- Ordered trace of the batch-level steps an entry point performs, used to
state in which order the watermark advance and the reconciliation happen. -/
inductive SyncEvent where
  | fetched (kind : String) (count : Nat)
  | fetchFailed (kind : String)
  | savedBatch (kind : String) (count : Nat)
  | advancedWatermark (key : String) (value : Nat)
  deriving DecidableEq, Repr

/-- Embedding of `auto_sync_shopify_products` (lines 88-151).  The fetch is
passed in as an `Except` (its `.error` case is the `UserError` raised by
`fetch_single_batch_products`).  On a non-empty batch the records are saved
first, then the watermark is advanced to the maximum `updated_at` seen, with
the +1-second bump when that maximum equals the stored watermark
(lines 120-133; the source's fallback for an unparseable timestamp cannot
occur in the `Nat` timestamp model).  The catch-all handler returns `False`
instead of re-raising (line 151). -/
def auto_sync_shopify_products (st : Store)
    (fetchResult : Except String (List RemoteProduct)) :
    Store × List SyncEvent × Except String (Option Bool) :=
  let last := st.config.products_last_updated_at
  let st := { st with sync_status := "running" }
  match fetchResult with
  | .error e =>
      (({ st with sync_status := "error" }).log "error" ("Error during product sync: " ++ e),
       [.fetchFailed "products"], .ok (some false))
  | .ok products =>
    match products with
    | [] =>
        (({ st with sync_status := "completed" }).log "info" "No products to sync in this batch",
         [.fetched "products" 0], .ok none)
    | _ :: _ =>
      let r := save_products_to_odoo st products
      let st1 := r.1
      let latest := (products.map (fun p => p.updated_at)).foldl Nat.max 0
      let latest1 := if some latest == last then latest + 1 else latest
      let st2 := { st1 with config := { st1.config with products_last_updated_at := some latest1 } }
      ({ st2 with sync_status := "completed" },
       [.fetched "products" products.length, .savedBatch "products" products.length,
        .advancedWatermark "shopify.last_updated_at" latest1],
       .ok none)

/-- Embedding of `auto_sync_shopify_orders` (lines 1126-1190).  On a
non-empty batch the watermark is advanced to the maximum `updated_at` seen
(converted to a UTC datetime string, the identity on the instant) BEFORE
`save_orders_to_odoo` runs (`set_param` at line 1168, save at line 1175),
and no duplicate-timestamp bump is applied.  The catch-all handler returns
`False` instead of re-raising (line 1190). -/
def auto_sync_shopify_orders (st : Store)
    (fetchResult : Except String (List RemoteOrder)) :
    Store × List SyncEvent × Except String (Option Bool) :=
  let st := { st with sync_status := "running" }
  match fetchResult with
  | .error e =>
      (({ st with sync_status := "error" }).log "error" ("Error during order sync: " ++ e),
       [.fetchFailed "orders"], .ok (some false))
  | .ok orders =>
    match orders with
    | [] =>
        (({ st with sync_status := "completed" }).log "info" "No orders to sync in this batch",
         [.fetched "orders" 0], .ok none)
    | _ :: _ =>
      let latest := (orders.map (fun o => o.updated_at)).foldl Nat.max 0
      let st1 := { st with config := { st.config with orders_last_updated_at := some latest } }
      let r := save_orders_to_odoo st1 orders
      ({ r.1 with sync_status := "completed" },
       [.fetched "orders" orders.length,
        .advancedWatermark "shopify.orders_last_updated_at" latest,
        .savedBatch "orders" orders.length],
       .ok none)

/-- Embedding of `export_products_to_shopify` (lines 1605-1634).  The search
for exportable products and the per-product HTTP POST are external calls
passed as arguments.  Per-product errors are logged and skipped
(lines 1623-1625); a batch-level error reaches the outer handler, which sets
the error status, logs, and RE-RAISES (line 1634), so the `.error` escapes
to the scheduler. -/
def export_products_to_shopify (st : Store)
    (searchResult : Except String (List ProductTemplate))
    (postProduct : ProductTemplate → Except String Nat) (now : Nat) :
    Store × Except String Unit :=
  let st := { st with sync_status := "running" }
  match searchResult with
  | .error e =>
      (({ st with sync_status := "error" }).log "error" ("Error during product export: " ++ e),
       .error e)
  | .ok productsToExport =>
      let st1 := productsToExport.foldl (fun acc pt =>
        match postProduct pt with
        | .ok shopifyId =>
            acc.writeTemplate pt.id (fun t =>
              { t with default_code := some (productTag shopifyId),
                       x_shopify_synced_at := some now, x_shopify_updated_at := some now })
        | .error e => acc.log "error" ("Error exporting product " ++ pt.name ++ ": " ++ e)) st
      ({ st1 with sync_status := "completed" }, .ok ())

/-- The variant loop of `_sync_product_inventory_to_shopify`
(lines 1732-1736): push the quantity of every `SHOPIFY_VAR_`-tagged variant;
the HTTP side is the `setInventory` argument. -/
def pushVariantInventories (setInventory : ProductVariantRec → Except String Unit) :
    List ProductVariantRec → Except String Unit
  | [] => .ok ()
  | pv :: rest =>
    match pv.default_code with
    | some c =>
        if strStartsWith c "SHOPIFY_VAR_" then
          match setInventory pv with
          | .error e => .error e
          | .ok () => pushVariantInventories setInventory rest
        else pushVariantInventories setInventory rest
    | none => pushVariantInventories setInventory rest

/-- The per-product body of `sync_inventory_to_shopify`
(`_sync_product_inventory_to_shopify`, lines 1723-1740). -/
def syncProductInventory (st : Store) (setInventory : ProductVariantRec → Except String Unit)
    (pt : ProductTemplate) : Except String Unit :=
  match pt.default_code with
  | none => .ok ()
  | some c =>
    if strStartsWith c "SHOPIFY_" then
      pushVariantInventories setInventory
        (st.variants.filter (fun pv => pv.product_tmpl_id == pt.id))
    else .ok ()

/-- Embedding of `sync_inventory_to_shopify` (lines 1692-1721).  Per-product
errors are logged and skipped (lines 1710-1712); a batch-level error reaches
the outer handler, which RE-RAISES (line 1721). -/
def sync_inventory_to_shopify (st : Store)
    (searchResult : Except String (List ProductTemplate))
    (setInventory : ProductVariantRec → Except String Unit) :
    Store × Except String Unit :=
  let st := { st with sync_status := "running" }
  match searchResult with
  | .error e =>
      (({ st with sync_status := "error" }).log "error" ("Error during inventory sync: " ++ e),
       .error e)
  | .ok prods =>
      let st1 := prods.foldl (fun acc pt =>
        match syncProductInventory acc setInventory pt with
        | .ok () => acc
        | .error e => acc.log "error" ("Error syncing inventory for " ++ pt.name ++ ": " ++ e)) st
      ({ st1 with sync_status := "completed" }, .ok ())

/-- Embedding of `_should_update_product_in_shopify` (lines 1855-1877):
update when no Shopify timestamp is stored, or when the record's
`write_date` is later than its last synced timestamp. -/
def should_update_product_in_shopify (pt : ProductTemplate) : Bool :=
  match pt.x_shopify_updated_at with
  | none => true
  | some xu =>
      let last_synced := match pt.x_shopify_synced_at with | some s => s | none => xu
      decide (last_synced < pt.write_date)

/-- Embedding of `update_products_to_shopify` (lines 1793-1853).  The
per-product HTTP PUT (product and variants,
`_update_single_product_to_shopify`) is the `putProduct` argument; success
stamps both sync timestamps (lines 1911-1916).  Per-product errors are
logged and skipped; a batch-level error reaches the outer handler, which
RE-RAISES (line 1853). -/
def update_products_to_shopify (st : Store)
    (searchResult : Except String (List ProductTemplate))
    (putProduct : ProductTemplate → Except String Unit) (now : Nat) :
    Store × Except String Unit :=
  let st := { st with sync_status := "running" }
  match searchResult with
  | .error e =>
      (({ st with sync_status := "error" }).log "error" ("Error during product updates: " ++ e),
       .error e)
  | .ok prods =>
      let st1 := prods.foldl (fun acc pt =>
        if should_update_product_in_shopify pt then
          match putProduct pt with
          | .ok () =>
              acc.writeTemplate pt.id (fun t =>
                { t with x_shopify_synced_at := some now, x_shopify_updated_at := some now })
          | .error e => acc.log "error" ("Error updating product " ++ pt.name ++ ": " ++ e)
        else acc) st
      let st2 := { st1 with config := { st1.config with last_odoo_to_shopify_sync := some now } }
      ({ st2 with sync_status := "completed" }, .ok ())

/-! ### Reference definitions taken from the specification's wording

The spec states the product resolution order in terms of records that do or
do not "carry an external-id tag".  The following two definitions transcribe
that wording (and its minimal amendment) so that they can be compared with
`resolveTemplate`, the definition transcribed from the source. -/

/-- A local record carries an external-id tag when its identifying field
holds a tag of the deterministic external-id form, i.e. a
`SHOPIFY_`-prefixed code (spec glossary). -/
def carriesExternalIdTag (t : ProductTemplate) : Bool :=
  match t.default_code with
  | some c => strStartsWith c "SHOPIFY_"
  | none => false

/-- Modelled from the spec: the resolution order exactly as the claim words
it.  (1) look up by the external-id tag derived from the remote id;
(2) else look up by exact name among records that have no external-id tag
and adopt; (3) else a same-name record carrying a different external-id tag
means skip; (4) else create. -/
def resolutionPerClaim (st : Store) (p : RemoteProduct) : Resolution :=
  match st.templates.find? (fun t => t.default_code == some (productTag p.id)) with
  | some t => .update t
  | none =>
    match st.templates.find? (fun t => t.name == p.title && !carriesExternalIdTag t) with
    | some t => .adopt t
    | none =>
      match st.templates.find? (fun t =>
          t.name == p.title && carriesExternalIdTag t &&
          t.default_code != some (productTag p.id)) with
      | some t => .skipCollision t
      | none => .create

/-- The resolution order as amended: step (2) adopts only records with no
default code at all, so a same-name record whose default code is not an
external-id tag (a manually assigned internal reference) is neither adopted
nor a creation blocker — it falls through to step (4). -/
def resolutionPerAmendedClaim (st : Store) (p : RemoteProduct) : Resolution :=
  match st.templates.find? (fun t => t.default_code == some (productTag p.id)) with
  | some t => .update t
  | none =>
    match st.templates.find? (fun t => t.name == p.title && t.default_code.isNone) with
    | some t => .adopt t
    | none =>
      match st.templates.find? (fun t =>
          t.name == p.title && carriesExternalIdTag t &&
          t.default_code != some (productTag p.id)) with
      | some t => .skipCollision t
      | none => .create

/-- Recognizer for the duplicate-skip event of the product batch loop. -/
def BatchEvent.isSkippedDuplicate : BatchEvent → Bool
  | .skippedDuplicate _ => true
  | _ => false

/-! ### Concrete fixtures used by counterexamples and witnesses -/

/-- The well-formed product of `test_transaction_isolation` in
`tests/test_shopify_sync.py`. -/
def testGoodProduct : RemoteProduct :=
  { id := 123, title := "Good Product", product_type := some "Test Category",
    vendor := some "Test Vendor", variants := [{ id := 456, price := "19.99" }] }

/-- The product of `test_transaction_isolation` whose variant price makes
`float(...)` raise. -/
def testBadProduct : RemoteProduct :=
  { id := 124, title := "Bad Product", product_type := some "Test Category",
    vendor := some "Test Vendor", variants := [{ id := 457, price := "invalid_price" }] }

/-- The concrete remote product of the spec's testable-property scenario:
`{id:100, title:"Widget", vendor:"Acme", variants:[{id:200, price:"9.99"}]}`. -/
def widgetAcme : RemoteProduct :=
  { id := 100, title := "Widget", vendor := some "Acme",
    variants := [{ id := 200, price := "9.99" }] }

/-- The same product re-synced with a different vendor. -/
def widgetVendorB : RemoteProduct := { widgetAcme with vendor := some "VendorB" }

/-- A manually created local record named like the remote product but
carrying a non-external default code. -/
def manualCodedTemplate : ProductTemplate :=
  { id := 1, name := "Widget", default_code := some "ABC" }

/-- A store holding only `manualCodedTemplate`. -/
def manualCodeStore : Store := { nextId := 5, templates := [manualCodedTemplate] }

/-- A store whose only sale order with tag `SHOPIFY_500` is cancelled. -/
def cancelledOrderStore : Store :=
  { nextId := 10,
    orders := [{ id := 7, name := "S7", partner_id := 3, client_order_ref := "SHOPIFY_500",
                 origin := "#1001", state := "cancel" }] }

/-- A store holding one sale order with tag `SHOPIFY_500` in state `sale`. -/
def confirmedOrderStore : Store :=
  { nextId := 10,
    orders := [{ id := 7, name := "S7", partner_id := 3, client_order_ref := "SHOPIFY_500",
                 origin := "#1001", state := "sale" }] }

/-- The remote order of the spec's concrete scenario, financial status
`paid`. -/
def remoteOrder500 : RemoteOrder :=
  { id := 500, name := "#1001", financial_status := "paid",
    line_items := [{ id := 900, variant_id := some 200, title := "Widget",
                     quantity := 2, price := "9.99" }] }

/-- A store holding a local variant tagged with Shopify variant id 200. -/
def variant200Store : Store :=
  { nextId := 20,
    variants := [{ id := 10, product_tmpl_id := 1, default_code := some "SHOPIFY_VAR_200" }] }

/-- A remote line item whose own id is 900 and whose purchased variant id is
200 — the id of the variant `variant200Store` holds. -/
def lineItemVariant200 : RemoteLineItem :=
  { id := 900, variant_id := some 200, title := "Widget", quantity := 2, price := "9.99" }

/-- A store whose stored orders watermark is 100 seconds. -/
def ordersWatermark100Store : Store := { config := { orders_last_updated_at := some 100 } }

/-- A remote order whose update timestamp equals the stored watermark of
`ordersWatermark100Store`. -/
def orderAtWatermark100 : RemoteOrder := { id := 1, name := "#1", updated_at := 100 }

/-- A trivial HTTP-post stub for the outbound entry points. -/
def postStub : ProductTemplate → Except String Nat := fun _ => .ok 1

/-- A trivial HTTP-put stub for the outbound entry points. -/
def putStub : ProductTemplate → Except String Unit := fun _ => .ok ()

/-- A trivial inventory-set stub for the outbound entry points. -/
def setInventoryStub : ProductVariantRec → Except String Unit := fun _ => .ok ()

/-- A local record already synchronized from a different remote id but
sharing the remote product's name. -/
def collisionTemplate : ProductTemplate :=
  { id := 1, name := "Widget", default_code := some "SHOPIFY_999" }

/-- A store holding only `collisionTemplate`. -/
def collisionStore : Store := { nextId := 5, templates := [collisionTemplate] }

/-- A remote product named like the records of `manualCodeStore` and
`collisionStore`. -/
def widgetRemote100 : RemoteProduct := { id := 100, title := "Widget" }

/-- The store after reconciling `widgetAcme` once into an empty store. -/
def widgetStoreOnce : Store :=
  match saveSingleProduct {} widgetAcme with
  | .ok st => st
  | .error _ => {}

/-- The store after reconciling `widgetAcme` a second time. -/
def widgetStoreTwice : Store :=
  match saveSingleProduct widgetStoreOnce widgetAcme with
  | .ok st => st
  | .error _ => widgetStoreOnce

/-- The store after then reconciling the same product with vendor
`VendorB`. -/
def widgetStoreThrice : Store :=
  match saveSingleProduct widgetStoreTwice widgetVendorB with
  | .ok st => st
  | .error _ => widgetStoreTwice

/-- Number of vendor links (`product.supplierinfo` rows) joining the
template carrying `tmplTag` with the partner named `vendorName`. -/
def vendorLinkCount (st : Store) (tmplTag vendorName : String) : Nat :=
  (st.suppliers.filter (fun s =>
    (match st.templates.find? (fun t => t.id == s.product_tmpl_id) with
     | some t => t.default_code == some tmplTag
     | none => false)
    &&
    (match st.partners.find? (fun pr => pr.id == s.partner_id) with
     | some pr => pr.name == vendorName
     | none => false))).length

/-- Record ids already present in the order and invoice tables are below the
next fresh id — true of every store the engine itself builds, and the
assumption under which a `write` by id touches only the intended row. -/
def Store.freshIds (st : Store) : Prop :=
  (∀ so ∈ st.orders, so.id < st.nextId) ∧ (∀ inv ∈ st.invoices, inv.id < st.nextId)

instance (st : Store) : Decidable st.freshIds := by
  unfold Store.freshIds; infer_instance

/-! ## Frame lemmas about the store operations -/

@[simp]
theorem log_templates (st : Store) (l m : String) : (st.log l m).templates = st.templates := rfl

@[simp]
theorem log_suppliers (st : Store) (l m : String) : (st.log l m).suppliers = st.suppliers := rfl

@[simp]
theorem log_orders (st : Store) (l m : String) : (st.log l m).orders = st.orders := rfl

@[simp]
theorem log_orderLines (st : Store) (l m : String) :
    (st.log l m).orderLines = st.orderLines := rfl

@[simp]
theorem log_invoices (st : Store) (l m : String) : (st.log l m).invoices = st.invoices := rfl

@[simp]
theorem log_users (st : Store) (l m : String) : (st.log l m).users = st.users := rfl

@[simp]
theorem log_config (st : Store) (l m : String) : (st.log l m).config = st.config := rfl

@[simp]
theorem log_nextId (st : Store) (l m : String) : (st.log l m).nextId = st.nextId := rfl

@[simp]
theorem log_sync_log (st : Store) (l m : String) :
    (st.log l m).sync_log = st.sync_log ++ [(l, m)] := rfl

@[simp]
theorem writeTemplate_suppliers (st : Store) (tid : Nat) (f : ProductTemplate → ProductTemplate) :
    (st.writeTemplate tid f).suppliers = st.suppliers := rfl

@[simp]
theorem writeTemplate_sync_log (st : Store) (tid : Nat) (f : ProductTemplate → ProductTemplate) :
    (st.writeTemplate tid f).sync_log = st.sync_log := rfl

@[simp]
theorem writeVariant_suppliers (st : Store) (vid : Nat) (f : ProductVariantRec → ProductVariantRec) :
    (st.writeVariant vid f).suppliers = st.suppliers := rfl

@[simp]
theorem writeVariant_templates (st : Store) (vid : Nat) (f : ProductVariantRec → ProductVariantRec) :
    (st.writeVariant vid f).templates = st.templates := rfl

@[simp]
theorem getOrCreateCategory_templates (st : Store) (n : String) :
    (getOrCreateCategory st n).1.templates = st.templates := by
  unfold getOrCreateCategory; split <;> rfl

@[simp]
theorem getOrCreateCategory_suppliers (st : Store) (n : String) :
    (getOrCreateCategory st n).1.suppliers = st.suppliers := by
  unfold getOrCreateCategory; split <;> rfl

@[simp]
theorem getOrCreateCategory_sync_log (st : Store) (n : String) :
    (getOrCreateCategory st n).1.sync_log = st.sync_log := by
  unfold getOrCreateCategory; split <;> rfl

@[simp]
theorem getOrCreateVendor_templates (st : Store) (n : String) :
    (getOrCreateVendor st n).1.templates = st.templates := by
  unfold getOrCreateVendor; split <;> rfl

@[simp]
theorem getOrCreateVendor_suppliers (st : Store) (n : String) :
    (getOrCreateVendor st n).1.suppliers = st.suppliers := by
  unfold getOrCreateVendor; split <;> rfl

@[simp]
theorem getOrCreateVendor_sync_log (st : Store) (n : String) :
    (getOrCreateVendor st n).1.sync_log = st.sync_log := by
  unfold getOrCreateVendor; split <;> rfl

@[simp]
theorem createCategoryAndVendor_templates (st : Store) (p : RemoteProduct) :
    (createCategoryAndVendor st p).1.templates = st.templates := by
  unfold createCategoryAndVendor; split <;> simp

@[simp]
theorem createCategoryAndVendor_suppliers (st : Store) (p : RemoteProduct) :
    (createCategoryAndVendor st p).1.suppliers = st.suppliers := by
  unfold createCategoryAndVendor; split <;> simp

@[simp]
theorem createCategoryAndVendor_sync_log (st : Store) (p : RemoteProduct) :
    (createCategoryAndVendor st p).1.sync_log = st.sync_log := by
  unfold createCategoryAndVendor; split <;> simp

/-- The product resolution reads only the template table. -/
theorem resolveTemplate_congr (st1 st2 : Store) (p : RemoteProduct)
    (h : st1.templates = st2.templates) : resolveTemplate st1 p = resolveTemplate st2 p := by
  unfold resolveTemplate; rw [h]

/-- `List.find?` only depends on the predicate's values. -/
theorem find_eq_of_pred_eq {α : Type} (l : List α) {p q : α → Bool} (h : ∀ a, p a = q a) :
    l.find? p = l.find? q := by
  induction l with
  | nil => rfl
  | cons a t ih => rw [List.find?_cons, List.find?_cons, h a, ih]

/-! ## Claim theorems -/

/-- C1.  In the product batch `[testGoodProduct, testBadProduct]` — the exact
scenario of `test_transaction_isolation` in `tests/test_shopify_sync.py` —
the failing second record is logged with its title and id and no exception
escapes the batch call, but the handler's full-transaction
`env.cr.rollback()` (line 480 of `shopify_sync.py`) also discards the first
record's writes: after the batch no template tagged `SHOPIFY_123` exists,
although running the good record alone leaves exactly one.  So a batch of
N = 2 records with one failure commits 0, not N − 1 = 1, records, contrary
to the claim, the spec (§4.4) and the repository's own test. -/
theorem products_batch_full_rollback_on_single_failure :
    (save_products_to_odoo {} [testGoodProduct, testBadProduct]).2 =
      [BatchEvent.processed "123",
       BatchEvent.failed "124" "Bad Product" "could not convert string to float: invalid_price"]
    ∧ ((save_products_to_odoo {} [testGoodProduct, testBadProduct]).1.templates.filter
        (fun t => t.default_code == some "SHOPIFY_123")) = []
    ∧ ((save_products_to_odoo {} [testGoodProduct]).1.templates.filter
        (fun t => t.default_code == some "SHOPIFY_123")).length = 1 := by
  decide

/-- C3.  When every order of a batch carries the update timestamp 100 and the
stored orders watermark is already 100, `auto_sync_shopify_orders` stores 100
again — not a strictly greater value: the +1-bump exists only in the
products path (last conjunct), never in the orders path (lines 1152-1173
have no counterpart to lines 121-131). -/
theorem orders_duplicate_timestamp_watermark_not_bumped :
    ordersWatermark100Store.config.orders_last_updated_at = some 100
    ∧ orderAtWatermark100.updated_at = 100
    ∧ (auto_sync_shopify_orders ordersWatermark100Store
        (.ok [orderAtWatermark100])).1.config.orders_last_updated_at = some 100
    ∧ (auto_sync_shopify_products { config := { products_last_updated_at := some 100 } }
        (.ok [{ id := 1, title := "X", updated_at := 100 }])).1.config.products_last_updated_at
      = some 101 := by
  decide

/-- C4.  The batch-step trace of `auto_sync_shopify_orders` advances the
watermark BEFORE the batch's records are reconciled (`set_param` at
line 1168, `save_orders_to_odoo` at line 1175), while the products entry
point advances it only after saving — so the claim's "advanced only after
the batch's records have been durably reconciled" fails for the orders
path. -/
theorem orders_watermark_advanced_before_save :
    (auto_sync_shopify_orders ordersWatermark100Store (.ok [orderAtWatermark100])).2.1 =
      [SyncEvent.fetched "orders" 1,
       SyncEvent.advancedWatermark "shopify.orders_last_updated_at" 100,
       SyncEvent.savedBatch "orders" 1]
    ∧ (auto_sync_shopify_products { config := { products_last_updated_at := some 100 } }
        (.ok [{ id := 1, title := "X", updated_at := 100 }])).2.1 =
      [SyncEvent.fetched "products" 1, SyncEvent.savedBatch "products" 1,
       SyncEvent.advancedWatermark "shopify.last_updated_at" 101] := by
  decide

/-- C9.  A store holds the local variant tagged with Shopify variant id 200,
and the remote line item purchases exactly that variant
(`variant_id = 200`), yet `_create_order_line` — which looks the product up
by the line item's own `id` field (999 here), contrary to its own comment
"Find product by variant ID or SKU" — creates a product-less fallback line
(carrying title, quantity and price, as claimed for the unmatched case). -/
theorem order_line_matched_by_line_item_id_not_variant_id :
    (variant200Store.variants.filter
      (fun pv => pv.default_code == some (variantTag 200))).length = 1
    ∧ lineItemVariant200.variant_id = some 200
    ∧ (createOrderLine variant200Store 5 lineItemVariant200).toOption.map
        (fun r => r.1.orderLines.map (fun l =>
          (l.product_id, l.name, l.product_uom_qty, l.price_unit))) =
      some [(none, "Widget", (2 : Rat), mkRat 999 100)] := by
  decide

/-- C8, counterexample.  A batch-level error in `export_products_to_shopify`
(here: the product search raising) escapes to the scheduler: the entry
point's except block re-raises (line 1634) instead of returning a status, so
the claim that none of the five entry points lets a batch-level error
propagate is false. -/
theorem export_batch_error_propagates :
    (export_products_to_shopify {} (.error "database error") postStub 0).2 =
      Except.error "database error" := by
  rfl

/-- C8, amended.  The two inbound entry points catch every batch-level error
and return `False` (lines 144-151 and 1183-1190); the three outbound entry
points (`export_products_to_shopify`, `sync_inventory_to_shopify`,
`update_products_to_shopify`) log the batch-level error, set the error
status, and re-raise it to the scheduler (lines 1631-1634, 1718-1721,
1850-1853). -/
theorem entry_point_error_propagation_amended :
    (∀ (st : Store) (fr : Except String (List RemoteProduct)),
        ∃ v, (auto_sync_shopify_products st fr).2.2 = Except.ok v)
    ∧ (∀ (st : Store) (fr : Except String (List RemoteOrder)),
        ∃ v, (auto_sync_shopify_orders st fr).2.2 = Except.ok v)
    ∧ (∀ (st : Store) (e : String) (post : ProductTemplate → Except String Nat) (now : Nat),
        (export_products_to_shopify st (.error e) post now).2 = Except.error e)
    ∧ (∀ (st : Store) (e : String) (si : ProductVariantRec → Except String Unit),
        (sync_inventory_to_shopify st (.error e) si).2 = Except.error e)
    ∧ (∀ (st : Store) (e : String) (put : ProductTemplate → Except String Unit) (now : Nat),
        (update_products_to_shopify st (.error e) put now).2 = Except.error e) := by
  refine ⟨?_, ?_, fun st e post now => rfl, fun st e si => rfl, fun st e put now => rfl⟩
  · intro st fr
    rcases fr with e | ps
    · exact ⟨some false, rfl⟩
    · cases ps with
      | nil => exact ⟨none, rfl⟩
      | cons p rest => exact ⟨none, rfl⟩
  · intro st fr
    rcases fr with e | os
    · exact ⟨some false, rfl⟩
    · cases os with
      | nil => exact ⟨none, rfl⟩
      | cons o rest => exact ⟨none, rfl⟩

/-- C5, counterexample.  `cancelledOrderStore` already holds a sale order
whose `client_order_ref` is the external-id tag `SHOPIFY_500`, but in state
`cancel`; re-syncing remote order 500 creates a second sale order with the
same tag, because the lookup of `_save_single_order` filters on
`state != 'cancel'` (line 1335). -/
theorem cancelled_order_resynced_creates_second_order :
    (cancelledOrderStore.orders.filter
      (fun so => so.client_order_ref == "SHOPIFY_500")).length = 1
    ∧ (saveSingleOrder cancelledOrderStore remoteOrder500).toOption.map
        (fun r => (r.1.orders.filter (fun so => so.client_order_ref == "SHOPIFY_500")).length) =
      some 2 := by
  decide

/-- C5, amended.  For every remote order whose external-id tag matches an
existing NON-CANCELLED local sale order, reconciliation performs no field
updates and returns the existing record: the store is unchanged except for
one informational `sync_log` line, so no second sale order, no order lines
and no invoice are created on re-sync. -/
theorem existing_noncancelled_order_returned_unchanged :
    ∀ (st : Store) (o : RemoteOrder) (ex : SaleOrder),
      st.orders.find? (fun so =>
        so.client_order_ref == productTag o.id && so.state != "cancel") = some ex →
      saveSingleOrder st o =
        .ok (st.log "info" ("Order " ++ o.name ++ " already exists, skipping"), ex.id)
      ∧ (st.log "info" ("Order " ++ o.name ++ " already exists, skipping")).orders = st.orders
      ∧ (st.log "info" ("Order " ++ o.name ++ " already exists, skipping")).orderLines
          = st.orderLines
      ∧ (st.log "info" ("Order " ++ o.name ++ " already exists, skipping")).invoices
          = st.invoices := by
  intro st o ex h
  refine ⟨?_, rfl, rfl, rfl⟩
  simp only [saveSingleOrder, h]

/-- C5, witness: the amended theorem applied to a store whose matching order
is in state `sale`. -/
theorem existing_noncancelled_order_returned_unchanged_witness :
    saveSingleOrder confirmedOrderStore remoteOrder500 =
      .ok (confirmedOrderStore.log "info" "Order #1001 already exists, skipping", 7) :=
  (existing_noncancelled_order_returned_unchanged confirmedOrderStore remoteOrder500
    { id := 7, name := "S7", partner_id := 3, client_order_ref := "SHOPIFY_500",
      origin := "#1001", state := "sale" } (by decide)).1

/-- C2, counterexample.  `manualCodeStore` holds a record named `Widget`
whose default code `ABC` is not an external-id tag.  The claim's step (2)
("look up by exact name among records that have no external-id tag, adopt")
resolves remote product 100 ("Widget") to adopting that record, but the
source's lookup additionally requires `default_code = False` (line 519), so
`_save_single_product` takes the create path instead. -/
theorem manual_code_not_adopted :
    resolutionPerClaim manualCodeStore widgetRemote100 =
      Resolution.adopt manualCodedTemplate
    ∧ resolveTemplate manualCodeStore widgetRemote100 = Resolution.create
    ∧ Resolution.create ≠ Resolution.adopt manualCodedTemplate := by
  decide

/-- C2, amended.  The source's resolution order agrees with the claim once
step (2) is restricted to records with no default code at all (a same-name
record carrying a non-external default code is neither adopted nor a
creation blocker); and in the step-(3) collision case `_save_single_product`
logs a warning and creates or updates no template. -/
theorem product_resolution_amended :
    ∀ (st : Store) (p : RemoteProduct),
      resolveTemplate st p = resolutionPerAmendedClaim st p
      ∧ (∀ t, resolveTemplate st p = .skipCollision t →
          ∃ st1, saveSingleProduct st p = .ok st1 ∧ st1.templates = st.templates
            ∧ ("warning", "Product with same name but different Shopify ID already exists: "
                 ++ p.title) ∈ st1.sync_log) := by
  intro st p
  constructor
  · have h2 : ∀ t : ProductTemplate,
        (t.name == p.title && t.default_code == none)
          = (t.name == p.title && t.default_code.isNone) := by
      intro t; cases hdc : t.default_code <;> rfl
    have h3 : ∀ t : ProductTemplate,
        (t.name == p.title &&
          (match t.default_code with
           | some c => strStartsWith c "SHOPIFY_" && c != productTag p.id
           | none => false))
          = (t.name == p.title && carriesExternalIdTag t &&
             t.default_code != some (productTag p.id)) := by
      intro t
      cases hdc : t.default_code with
      | none => simp [carriesExternalIdTag, hdc]
      | some c =>
          have hb : ((some c : Option String) != some (productTag p.id))
              = (c != productTag p.id) := rfl
          simp [carriesExternalIdTag, hdc, hb, Bool.and_assoc]
    unfold resolveTemplate resolutionPerAmendedClaim
    rw [find_eq_of_pred_eq st.templates h2, find_eq_of_pred_eq st.templates h3]
  · intro t hskip
    simp only [saveSingleProduct]
    have hres : resolveTemplate (createCategoryAndVendor st p).1 p
        = Resolution.skipCollision t := by
      rw [resolveTemplate_congr (createCategoryAndVendor st p).1 st p (by simp), hskip]
    rw [hres]
    refine ⟨_, rfl, ?_, ?_⟩
    · simp
    · simp

/-- C2, witness: the amended theorem applied to a store with a genuine
name collision under a different external-id tag. -/
theorem product_resolution_amended_witness :
    resolveTemplate collisionStore widgetRemote100
      = resolutionPerAmendedClaim collisionStore widgetRemote100
    ∧ ∃ st1, saveSingleProduct collisionStore widgetRemote100 = .ok st1
        ∧ st1.templates = collisionStore.templates
        ∧ ("warning", "Product with same name but different Shopify ID already exists: Widget")
            ∈ st1.sync_log :=
  ⟨(product_resolution_amended collisionStore widgetRemote100).1,
   (product_resolution_amended collisionStore widgetRemote100).2 collisionTemplate (by decide)⟩

/-- Generalized invariant of the product batch loop: one event per input
record, and an event is the duplicate skip exactly when the record's Shopify
id was already processed (set membership in `processed_ids`, line 468) or
occurred earlier in the same batch. -/
theorem saveProductsLoop_events :
    ∀ (ps : List RemoteProduct) (txn cur : Store) (processed : List String),
      (saveProductsLoop txn cur processed ps).2.length = ps.length
      ∧ ∀ (i : Nat) (p : RemoteProduct), ps[i]? = some p →
          ∃ e, (saveProductsLoop txn cur processed ps).2[i]? = some e
            ∧ (e.isSkippedDuplicate = true ↔
                (toString p.id ∈ processed
                 ∨ toString p.id ∈ (ps.take i).map (fun q => toString q.id))) := by
  intro ps
  induction ps with
  | nil =>
      intro txn cur processed
      refine ⟨rfl, ?_⟩
      intro i p hp
      simp at hp
  | cons p rest ih =>
      intro txn cur processed
      simp only [saveProductsLoop]
      split
      case isTrue hdup =>
        refine ⟨by simp [(ih txn _ processed).1], ?_⟩
        intro i q hq
        cases i with
        | zero =>
            simp at hq
            subst hq
            refine ⟨_, List.getElem?_cons_zero, ?_⟩
            simp [BatchEvent.isSkippedDuplicate, hdup]
        | succ i =>
            simp only [List.getElem?_cons_succ] at hq
            obtain ⟨e, he, hiff⟩ := (ih txn _ processed).2 i q hq
            refine ⟨e, by simpa using he, ?_⟩
            rw [hiff]
            simp only [List.take_succ_cons, List.map_cons, List.mem_cons]
            constructor
            · intro h; tauto
            · rintro (h | h | h) <;> try tauto
              exact Or.inl (h ▸ hdup)
      case isFalse hdup =>
        split
        case h_1 st1 heq =>
          refine ⟨by simp [(ih txn st1 _).1], ?_⟩
          intro i q hq
          cases i with
          | zero =>
              simp at hq
              subst hq
              refine ⟨_, List.getElem?_cons_zero, ?_⟩
              simp [BatchEvent.isSkippedDuplicate, hdup]
          | succ i =>
              simp only [List.getElem?_cons_succ] at hq
              obtain ⟨e, he, hiff⟩ := (ih txn st1 (toString p.id :: processed)).2 i q hq
              refine ⟨e, by simpa using he, ?_⟩
              rw [hiff]
              simp only [List.take_succ_cons, List.map_cons, List.mem_cons]
              tauto
        case h_2 e heq =>
          refine ⟨by simp [(ih txn txn _).1], ?_⟩
          intro i q hq
          cases i with
          | zero =>
              simp at hq
              subst hq
              refine ⟨_, List.getElem?_cons_zero, ?_⟩
              simp [BatchEvent.isSkippedDuplicate, hdup]
          | succ i =>
              simp only [List.getElem?_cons_succ] at hq
              obtain ⟨e2, he, hiff⟩ := (ih txn txn (toString p.id :: processed)).2 i q hq
              refine ⟨e2, by simpa using he, ?_⟩
              rw [hiff]
              simp only [List.take_succ_cons, List.map_cons, List.mem_cons]
              tauto

/-- C10.  Within one `save_products_to_odoo` call, remote products sharing a
Shopify id are reconciled at most once: the batch produces one event per
input record, and record `i` is skipped (with the logged duplicate warning)
exactly when its Shopify id already occurred among records `0..i-1` of the
same batch; a first occurrence is processed or, on an exception, failed —
never skipped. -/
theorem duplicate_ids_in_batch_skipped :
    ∀ (txn : Store) (ps : List RemoteProduct),
      (save_products_to_odoo txn ps).2.length = ps.length
      ∧ ∀ (i : Nat) (p : RemoteProduct), ps[i]? = some p →
          ∃ e, (save_products_to_odoo txn ps).2[i]? = some e
            ∧ (e.isSkippedDuplicate = true ↔
                toString p.id ∈ (ps.take i).map (fun q => toString q.id)) := by
  intro txn ps
  obtain ⟨hlen, hidx⟩ := saveProductsLoop_events ps txn txn []
  refine ⟨hlen, ?_⟩
  intro i p hp
  obtain ⟨e, he, hiff⟩ := hidx i p hp
  refine ⟨e, he, ?_⟩
  rw [hiff]
  simp

/-- C10, witness: in the batch `[widgetAcme, widgetAcme]` the second
occurrence of Shopify id 100 is skipped as a duplicate. -/
theorem duplicate_ids_in_batch_skipped_witness :
    (save_products_to_odoo {} [widgetAcme, widgetAcme]).2.length = 2
    ∧ ∃ e, (save_products_to_odoo {} [widgetAcme, widgetAcme]).2[1]? = some e
        ∧ (e.isSkippedDuplicate = true ↔
            toString widgetAcme.id ∈
              ([widgetAcme, widgetAcme].take 1).map (fun q => toString q.id)) :=
  ⟨(duplicate_ids_in_batch_skipped {} [widgetAcme, widgetAcme]).1,
   (duplicate_ids_in_batch_skipped {} [widgetAcme, widgetAcme]).2 1 widgetAcme (by decide)⟩

/-- Saving one variant never touches the supplier table. -/
theorem saveProductVariant_suppliers (st : Store) (tid : Nat) (v : RemoteVariant)
    (r : Store × Nat) (h : saveProductVariant st tid v = .ok r) :
    r.1.suppliers = st.suppliers := by
  simp only [saveProductVariant] at h
  repeat' split at h
  all_goals
    first
    | exact Except.noConfusion h
    | (injection h with h2; subst h2; simp [Store.writeVariant, Store.createVariantFromVals])

/-- The variant loop never touches the supplier table. -/
theorem saveVariantsList_suppliers :
    ∀ (vs : List RemoteVariant) (st : Store) (tid : Nat) (r : Store × List Nat),
      saveVariantsList st tid vs = .ok r → r.1.suppliers = st.suppliers := by
  intro vs
  induction vs with
  | nil =>
      intro st tid r h
      injection h with h2
      subst h2
      rfl
  | cons v rest ih =>
      intro st tid r h
      unfold saveVariantsList at h
      split at h
      · exact Except.noConfusion h
      case h_2 st' vid heq1 =>
        split at h
        · exact Except.noConfusion h
        case h_2 st2 ids heq2 =>
          injection h with h2
          subst h2
          have e1 := saveProductVariant_suppliers st tid v (st', vid) heq1
          have e2 := ih st' tid (st2, ids) heq2
          simp at e1 e2
          simp [e2, e1]

/-- The linkage fixup never touches the supplier table. -/
theorem verifyVariantLinkage_suppliers :
    ∀ (ids : List Nat) (st : Store) (tid : Nat),
      (verifyVariantLinkage st tid ids).suppliers = st.suppliers := by
  intro ids
  induction ids with
  | nil => intro st tid; rfl
  | cons i rest ih =>
      intro st tid
      unfold verifyVariantLinkage
      split
      · split
        · rw [ih]; simp
        · rw [ih]
      · rw [ih]

/-- The post-template part of a product save never touches the supplier
table. -/
theorem finishProductSave_suppliers (st : Store) (tid : Nat) (p : RemoteProduct)
    (st1 : Store) (h : finishProductSave st tid p = .ok st1) :
    st1.suppliers = st.suppliers := by
  unfold finishProductSave at h
  split at h
  · exact Except.noConfusion h
  case h_2 st' ids heq =>
    injection h with h2
    subst h2
    rw [verifyVariantLinkage_suppliers]
    have := saveVariantsList_suppliers p.variants st tid (st', ids) heq
    simpa using this

/-- Template creation only appends to the supplier table. -/
theorem createTemplateFromVals_suppliers_mono (st : Store) (v : TemplateVals) :
    st.suppliers <+: (st.createTemplateFromVals v).1.suppliers := by
  unfold Store.createTemplateFromVals
  split
  · dsimp only
    exact List.prefix_append _ _
  · exact List.prefix_rfl

/-- The write/create part of a product save only appends to the supplier
table. -/
theorem saveResolvedProduct_suppliers_mono (st : Store) (p : RemoteProduct) (categId : Nat)
    (vendorId : Option Nat) (existingTemplate : Option ProductTemplate) (st1 : Store)
    (h : saveResolvedProduct st p categId vendorId existingTemplate = .ok st1) :
    st.suppliers <+: st1.suppliers := by
  simp only [saveResolvedProduct] at h
  repeat' split at h
  all_goals have hf := finishProductSave_suppliers _ _ _ _ h
  all_goals rw [hf]
  all_goals
    first
    | (dsimp only; simp only [writeTemplate_suppliers]; exact List.prefix_append _ _)
    | (simp only [writeTemplate_suppliers]; exact List.prefix_rfl)
    | exact createTemplateFromVals_suppliers_mono st _

/-- A product reconciliation only ever appends supplier rows: the old vendor
links are a prefix of the new ones. -/
theorem saveSingleProduct_suppliers_mono (st : Store) (p : RemoteProduct) (st1 : Store)
    (h : saveSingleProduct st p = .ok st1) :
    st.suppliers <+: st1.suppliers := by
  simp only [saveSingleProduct] at h
  split at h
  · injection h with h2
    subst h2
    simp only [log_suppliers, createCategoryAndVendor_suppliers]
    exact List.prefix_rfl
  all_goals
    have hm := saveResolvedProduct_suppliers_mono _ _ _ _ _ _ h
  all_goals simpa using hm

/-- C7.  Vendor links are additive-only and de-duplicated: reconciling the
spec's concrete product (`{id:100, title:"Widget", vendor:"Acme", ...}`)
twice leaves exactly one supplier row joining template `SHOPIFY_100` with
partner `Acme`; reconciling once more with vendor `VendorB` leaves exactly
two rows, one per vendor, with `Acme` still present; and in general no
product reconciliation ever removes a supplier row — the supplier table
before the pass is a prefix of the table after it. -/
theorem vendor_links_additive_and_deduplicated :
    (vendorLinkCount widgetStoreOnce "SHOPIFY_100" "Acme" = 1
      ∧ widgetStoreOnce.suppliers.length = 1
      ∧ vendorLinkCount widgetStoreTwice "SHOPIFY_100" "Acme" = 1
      ∧ widgetStoreTwice.suppliers.length = 1
      ∧ vendorLinkCount widgetStoreThrice "SHOPIFY_100" "Acme" = 1
      ∧ vendorLinkCount widgetStoreThrice "SHOPIFY_100" "VendorB" = 1
      ∧ widgetStoreThrice.suppliers.length = 2)
    ∧ (∀ (st : Store) (p : RemoteProduct) (st1 : Store),
        saveSingleProduct st p = .ok st1 → st.suppliers <+: st1.suppliers) := by
  constructor
  · decide
  · intro st p st1 h
    exact saveSingleProduct_suppliers_mono st p st1 h

/-- C7, witness: the no-removal part applied to the third reconciliation of
the concrete scenario. -/
theorem vendor_links_additive_and_deduplicated_witness :
    saveSingleProduct widgetStoreTwice widgetVendorB = .ok widgetStoreThrice
    ∧ widgetStoreTwice.suppliers <+: widgetStoreThrice.suppliers :=
  ⟨rfl,
   (vendor_links_additive_and_deduplicated).2 widgetStoreTwice widgetVendorB widgetStoreThrice rfl⟩


theorem getOrCreateCustomer_orders (st : Store) (o : RemoteOrder) :
    (getOrCreateCustomer st o).1.orders = st.orders := by
  simp only [getOrCreateCustomer]
  repeat' split
  all_goals rfl

theorem getOrCreateCustomer_orderLines (st : Store) (o : RemoteOrder) :
    (getOrCreateCustomer st o).1.orderLines = st.orderLines := by
  simp only [getOrCreateCustomer]
  repeat' split
  all_goals rfl

theorem getOrCreateCustomer_invoices (st : Store) (o : RemoteOrder) :
    (getOrCreateCustomer st o).1.invoices = st.invoices := by
  simp only [getOrCreateCustomer]
  repeat' split
  all_goals rfl

theorem getOrCreateCustomer_users (st : Store) (o : RemoteOrder) :
    (getOrCreateCustomer st o).1.users = st.users := by
  simp only [getOrCreateCustomer]
  repeat' split
  all_goals rfl

theorem getOrCreateCustomer_config (st : Store) (o : RemoteOrder) :
    (getOrCreateCustomer st o).1.config = st.config := by
  simp only [getOrCreateCustomer]
  repeat' split
  all_goals rfl

theorem getOrCreateCustomer_nextId (st : Store) (o : RemoteOrder) :
    st.nextId ≤ (getOrCreateCustomer st o).1.nextId := by
  simp only [getOrCreateCustomer]
  repeat' split
  all_goals simp

theorem createOrderLine_ok (st : Store) (oid : Nat) (li : RemoteLineItem) (r : Store × Nat)
    (h : createOrderLine st oid li = .ok r) :
    ∃ line : SaleOrderLine, line.order_id = oid ∧
      r.1 = { st with nextId := st.nextId + 1, orderLines := st.orderLines ++ [line] } := by
  simp only [createOrderLine] at h
  split at h
  · exact Except.noConfusion h
  case h_2 pu heq =>
    injection h with h2
    subst h2
    exact ⟨_, rfl, rfl⟩

theorem createOrderLines_frame :
    ∀ (items : List RemoteLineItem) (st : Store) (oid : Nat) (st1 : Store),
      createOrderLines st oid items = .ok st1 →
      st1.orders = st.orders ∧ st1.invoices = st.invoices ∧ st1.users = st.users
        ∧ st1.config = st.config ∧ st.nextId ≤ st1.nextId
        ∧ ∃ new, st1.orderLines = st.orderLines ++ new := by
  intro items
  induction items with
  | nil =>
      intro st oid st1 h
      injection h with h2
      subst h2
      exact ⟨rfl, rfl, rfl, rfl, Nat.le_refl _, [], by simp⟩
  | cons li rest ih =>
      intro st oid st1 h
      unfold createOrderLines at h
      split at h
      · exact Except.noConfusion h
      case h_2 st' lid heq =>
        obtain ⟨hor, hinv, hus, hcf, hni, new, hol⟩ := ih st' oid st1 h
        obtain ⟨line, hline, hst'⟩ := createOrderLine_ok st oid li (st', lid) heq
        simp only at hst'
        subst hst'
        refine ⟨hor, hinv, hus, hcf, ?_, [line] ++ new, ?_⟩
        · exact Nat.le_trans (Nat.le_succ _) hni
        · rw [hol]; simp

theorem writeOrder_on_fresh (st : Store) (base : List SaleOrder) (so : SaleOrder)
    (oid : Nat) (f : SaleOrder → SaleOrder)
    (horders : st.orders = base ++ [so]) (hsoid : so.id = oid)
    (hbase : ∀ x ∈ base, x.id ≠ oid) :
    (st.writeOrder oid f).orders = base ++ [f so] := by
  unfold Store.writeOrder
  rw [horders, List.map_append]
  have h1 : base.map (fun x => if x.id = oid then f x else x) = base := by
    calc base.map (fun x => if x.id = oid then f x else x)
        = base.map id := List.map_congr_left (fun x hx => by simp [if_neg (hbase x hx)])
      _ = base := List.map_id base
  rw [h1]
  simp [hsoid]

theorem writeInvoice_on_fresh (st : Store) (old : List AccountMove) (inv : AccountMove)
    (iid : Nat) (f : AccountMove → AccountMove)
    (hinvs : st.invoices = old ++ [inv]) (hiid : inv.id = iid)
    (hold : ∀ x ∈ old, x.id ≠ iid) :
    (st.writeInvoice iid f).invoices = old ++ [f inv] := by
  unfold Store.writeInvoice
  rw [hinvs, List.map_append]
  have h1 : old.map (fun x => if x.id = iid then f x else x) = old := by
    calc old.map (fun x => if x.id = iid then f x else x)
        = old.map id := List.map_congr_left (fun x hx => by simp [if_neg (hold x hx)])
      _ = old := List.map_id old
  rw [h1]
  simp [hiid]

theorem activatePortalUser_frame (st : Store) (pid : Nat) :
    (activatePortalUser st pid).orders = st.orders
    ∧ (activatePortalUser st pid).invoices = st.invoices
    ∧ (activatePortalUser st pid).orderLines = st.orderLines
    ∧ ∃ u ∈ (activatePortalUser st pid).users, u.partner_id = pid ∧ u.active = true := by
  unfold activatePortalUser
  split
  case h_1 heq =>
    refine ⟨rfl, rfl, rfl,
      ⟨{ id := st.nextId, partner_id := pid, active := true }, ?_, rfl, rfl⟩⟩
    simp
  case h_2 u heq =>
    have hmem := List.mem_of_find?_eq_some heq
    have hpred := List.find?_some heq
    simp only [beq_iff_eq] at hpred
    split
    case isTrue hact =>
      refine ⟨rfl, rfl, rfl, ⟨{ u with active := true }, ?_, hpred, rfl⟩⟩
      unfold Store.writeUser
      have := List.mem_map_of_mem (fun x => if x.id = u.id then { x with active := true } else x) hmem
      simpa using this
    case isFalse hact =>
      refine ⟨rfl, rfl, rfl, ⟨u, hmem, hpred, ?_⟩⟩
      simpa using hact



@[simp] theorem writeOrder_invoices (st : Store) (oid : Nat) (f : SaleOrder → SaleOrder) :
    (st.writeOrder oid f).invoices = st.invoices := rfl
@[simp] theorem writeOrder_users (st : Store) (oid : Nat) (f : SaleOrder → SaleOrder) :
    (st.writeOrder oid f).users = st.users := rfl
@[simp] theorem writeOrder_orderLines (st : Store) (oid : Nat) (f : SaleOrder → SaleOrder) :
    (st.writeOrder oid f).orderLines = st.orderLines := rfl
@[simp] theorem writeOrder_config (st : Store) (oid : Nat) (f : SaleOrder → SaleOrder) :
    (st.writeOrder oid f).config = st.config := rfl
@[simp] theorem writeOrder_nextId (st : Store) (oid : Nat) (f : SaleOrder → SaleOrder) :
    (st.writeOrder oid f).nextId = st.nextId := rfl
@[simp] theorem writeInvoice_orders (st : Store) (iid : Nat) (f : AccountMove → AccountMove) :
    (st.writeInvoice iid f).orders = st.orders := rfl
@[simp] theorem writeInvoice_users (st : Store) (iid : Nat) (f : AccountMove → AccountMove) :
    (st.writeInvoice iid f).users = st.users := rfl
@[simp] theorem writeInvoice_orderLines (st : Store) (iid : Nat) (f : AccountMove → AccountMove) :
    (st.writeInvoice iid f).orderLines = st.orderLines := rfl
@[simp] theorem writeInvoice_config (st : Store) (iid : Nat) (f : AccountMove → AccountMove) :
    (st.writeInvoice iid f).config = st.config := rfl
@[simp] theorem writeUser_orders (st : Store) (uid : Nat) (f : PortalUser → PortalUser) :
    (st.writeUser uid f).orders = st.orders := rfl
@[simp] theorem writeUser_invoices (st : Store) (uid : Nat) (f : PortalUser → PortalUser) :
    (st.writeUser uid f).invoices = st.invoices := rfl
@[simp] theorem writeUser_orderLines (st : Store) (uid : Nat) (f : PortalUser → PortalUser) :
    (st.writeUser uid f).orderLines = st.orderLines := rfl

theorem afs_cancelled (st : Store) (oid pid : Nat) (onm : String) (o : RemoteOrder)
    (base : List SaleOrder) (so : SaleOrder)
    (horders : st.orders = base ++ [so]) (hsoid : so.id = oid)
    (hbase : ∀ x ∈ base, x.id ≠ oid)
    (hc : o.financial_status = "cancelled") :
    (applyFinancialStatus st oid pid onm o).orders = base ++ [{ so with state := "cancel" }]
    ∧ (applyFinancialStatus st oid pid onm o).invoices = st.invoices
    ∧ (applyFinancialStatus st oid pid onm o).users = st.users
    ∧ (applyFinancialStatus st oid pid onm o).orderLines = st.orderLines := by
  simp only [applyFinancialStatus, hc, beq_self_eq_true, if_true]
  refine ⟨?_, by simp, by simp, by simp⟩
  simp only [log_orders]
  exact writeOrder_on_fresh st base so oid _ horders hsoid hbase

theorem afs_other (st : Store) (oid pid : Nat) (onm : String) (o : RemoteOrder)
    (h1 : o.financial_status ≠ "cancelled") (h2 : o.financial_status ≠ "paid") :
    (applyFinancialStatus st oid pid onm o).orders = st.orders
    ∧ (applyFinancialStatus st oid pid onm o).invoices = st.invoices
    ∧ (applyFinancialStatus st oid pid onm o).users = st.users
    ∧ (applyFinancialStatus st oid pid onm o).orderLines = st.orderLines := by
  have hb1 : (o.financial_status == "cancelled") = false := by
    simp [h1]
  have hb2 : (o.financial_status == "paid") = false := by
    simp [h2]
  simp only [applyFinancialStatus, hb1, hb2, Bool.false_eq_true, if_false]
  split <;> exact ⟨by simp, by simp, by simp, by simp⟩



@[simp] theorem confirmOrder_invoices (st : Store) (oid : Nat) :
    (confirmOrder st oid).invoices = st.invoices := rfl
@[simp] theorem confirmOrder_users (st : Store) (oid : Nat) :
    (confirmOrder st oid).users = st.users := rfl
@[simp] theorem confirmOrder_orderLines (st : Store) (oid : Nat) :
    (confirmOrder st oid).orderLines = st.orderLines := rfl
@[simp] theorem confirmOrder_config (st : Store) (oid : Nat) :
    (confirmOrder st oid).config = st.config := rfl
@[simp] theorem confirmOrder_nextId (st : Store) (oid : Nat) :
    (confirmOrder st oid).nextId = st.nextId := rfl

@[simp] theorem createInvoiceForOrder_orders (st : Store) (oid pid : Nat) (onm : String) :
    (createInvoiceForOrder st oid pid onm).1.orders = st.orders := rfl
@[simp] theorem createInvoiceForOrder_users (st : Store) (oid pid : Nat) (onm : String) :
    (createInvoiceForOrder st oid pid onm).1.users = st.users := rfl
@[simp] theorem createInvoiceForOrder_orderLines (st : Store) (oid pid : Nat) (onm : String) :
    (createInvoiceForOrder st oid pid onm).1.orderLines = st.orderLines := rfl
@[simp] theorem createInvoiceForOrder_config (st : Store) (oid pid : Nat) (onm : String) :
    (createInvoiceForOrder st oid pid onm).1.config = st.config := rfl
@[simp] theorem createInvoiceForOrder_snd (st : Store) (oid pid : Nat) (onm : String) :
    (createInvoiceForOrder st oid pid onm).2 = st.nextId := rfl

theorem postedInvoice_invoices (st : Store) (oid pid : Nat) (onm : String)
    (hinv : ∀ x ∈ st.invoices, x.id ≠ st.nextId) :
    ((createInvoiceForOrder (confirmOrder st oid) oid pid onm).1.writeInvoice
       (createInvoiceForOrder (confirmOrder st oid) oid pid onm).2
       (fun i => { i with posted := true })).invoices
    = st.invoices ++
      [{ id := st.nextId, partner_id := pid, invoice_origin := onm, posted := true,
         sent := false,
         lines := (st.orderLines.filter (fun l => l.order_id == oid)).map
           invoiceLineOfOrderLine }] := by
  exact writeInvoice_on_fresh _ st.invoices
    { id := st.nextId, partner_id := pid, invoice_origin := onm, posted := false,
      sent := false,
      lines := (st.orderLines.filter (fun l => l.order_id == oid)).map invoiceLineOfOrderLine }
    st.nextId _ rfl rfl hinv



theorem afs_paid (st : Store) (oid pid : Nat) (onm : String) (o : RemoteOrder)
    (base : List SaleOrder) (so : SaleOrder)
    (horders : st.orders = base ++ [so]) (hsoid : so.id = oid)
    (hbase : ∀ x ∈ base, x.id ≠ oid)
    (hinv : ∀ x ∈ st.invoices, x.id ≠ st.nextId)
    (hp : o.financial_status = "paid") :
    (applyFinancialStatus st oid pid onm o).orders = base ++ [{ so with state := "sale" }]
    ∧ (∃ inv : AccountMove,
        (applyFinancialStatus st oid pid onm o).invoices = st.invoices ++ [inv]
        ∧ inv.posted = true ∧ inv.partner_id = pid ∧ inv.invoice_origin = onm
        ∧ inv.sent = st.config.send_invoice_on_payment
        ∧ inv.lines = (st.orderLines.filter (fun l => l.order_id == oid)).map
            invoiceLineOfOrderLine)
    ∧ (applyFinancialStatus st oid pid onm o).orderLines = st.orderLines
    ∧ (st.config.create_user_portal = false →
        (applyFinancialStatus st oid pid onm o).users = st.users)
    ∧ (st.config.create_user_portal = true →
        ∃ u ∈ (applyFinancialStatus st oid pid onm o).users,
          u.partner_id = pid ∧ u.active = true) := by
  have e1 : (o.financial_status == "cancelled") = false := by rw [hp]; decide
  have e2 : (o.financial_status == "paid") = true := by rw [hp]; decide
  have hordconf : (confirmOrder st oid).orders = base ++ [{ so with state := "sale" }] :=
    writeOrder_on_fresh st base so oid _ horders hsoid hbase
  have hsentinv :
      (((createInvoiceForOrder (confirmOrder st oid) oid pid onm).1.writeInvoice
          st.nextId (fun i => { i with posted := true })).writeInvoice
        st.nextId (fun i => { i with sent := true })).invoices
      = st.invoices ++
        [{ id := st.nextId, partner_id := pid, invoice_origin := onm, posted := true,
           sent := true,
           lines := (st.orderLines.filter (fun l => l.order_id == oid)).map
             invoiceLineOfOrderLine }] :=
    writeInvoice_on_fresh _ st.invoices
      { id := st.nextId, partner_id := pid, invoice_origin := onm, posted := true,
        sent := false,
        lines := (st.orderLines.filter (fun l => l.order_id == oid)).map
          invoiceLineOfOrderLine }
      st.nextId _ (postedInvoice_invoices st oid pid onm hinv) rfl hinv
  simp only [applyFinancialStatus, e1, e2, Bool.false_eq_true, if_false, if_true,
             createInvoiceForOrder_snd, confirmOrder_nextId]
  simp only [writeInvoice_config, log_config, createInvoiceForOrder_config,
             confirmOrder_config, apply_ite Store.config, ite_self]
  rcases Bool.dichotomy st.config.send_invoice_on_payment with hsend | hsend
  case inl =>
      simp only [hsend, Bool.false_eq_true, if_false]
      rcases Bool.dichotomy st.config.create_user_portal with hportal | hportal
      case inl =>
          simp only [hportal, Bool.false_eq_true, if_false]
          refine ⟨?_, ⟨mirroredInvoice st oid pid onm false, ?_, rfl, rfl, rfl, rfl, rfl⟩, ?_, ?_, ?_⟩
          · simp only [log_orders, writeInvoice_orders, createInvoiceForOrder_orders]
            exact hordconf
          · simp only [log_invoices]
            exact postedInvoice_invoices st oid pid onm hinv
          · simp
          · intro hx; simp
          · intro hx; exact absurd hx (by simp [hportal])
      case inr =>
          simp only [hportal, if_true]
          obtain ⟨hao, hai, hal, hau⟩ := activatePortalUser_frame
            (((createInvoiceForOrder (confirmOrder st oid) oid pid onm).1.writeInvoice
                st.nextId (fun i => { i with posted := true })).log "info"
              ("Invoice not sent for order: " ++ o.name ++ " due to configuration")) pid
          refine ⟨?_, ⟨mirroredInvoice st oid pid onm false, ?_, rfl, rfl, rfl, rfl, rfl⟩, ?_, ?_, ?_⟩
          · rw [hao]
            simp only [log_orders, writeInvoice_orders, createInvoiceForOrder_orders]
            exact hordconf
          · rw [hai]
            simp only [log_invoices]
            exact postedInvoice_invoices st oid pid onm hinv
          · rw [hal]; simp
          · intro hx; exact absurd hx (by simp [hportal])
          · intro hx; exact hau
  case inr =>
      simp only [hsend, if_true]
      rcases Bool.dichotomy st.config.create_user_portal with hportal | hportal
      case inl =>
          simp only [hportal, Bool.false_eq_true, if_false]
          refine ⟨?_, ⟨mirroredInvoice st oid pid onm true, ?_, rfl, rfl, rfl, rfl, rfl⟩, ?_, ?_, ?_⟩
          · simp only [writeInvoice_orders, createInvoiceForOrder_orders]
            exact hordconf
          · exact hsentinv
          · simp
          · intro hx; simp
          · intro hx; exact absurd hx (by simp [hportal])
      case inr =>
          simp only [hportal, if_true]
          obtain ⟨hao, hai, hal, hau⟩ := activatePortalUser_frame
            (((createInvoiceForOrder (confirmOrder st oid) oid pid onm).1.writeInvoice
                st.nextId (fun i => { i with posted := true })).writeInvoice
              st.nextId (fun i => { i with sent := true })) pid
          refine ⟨?_, ⟨mirroredInvoice st oid pid onm true, ?_, rfl, rfl, rfl, rfl, rfl⟩, ?_, ?_, ?_⟩
          · rw [hao]
            simp only [writeInvoice_orders, createInvoiceForOrder_orders]
            exact hordconf
          · rw [hai]
            exact hsentinv
          · rw [hal]; simp
          · intro hx; exact absurd hx (by simp [hportal])
          · intro hx; exact hau



/-- C6.  For every newly created sale order (no existing non-cancelled order
carries the tag, and the save succeeded), the remote financial status drives
exactly one side-effect path: `cancelled` leaves the new order cancelled and
creates no invoice; `paid` leaves it confirmed (state `sale`) and appends
exactly one invoice — posted, billed to the order's partner, originating
from the order's name, its lines mirroring the order's lines — whose `sent`
flag equals the `send_invoice_on_payment` configuration flag, while the
portal-user side effect happens exactly when `create_user_portal` is set;
`partially_paid` or any other status leaves the order in `draft` with no
invoice.  The `freshIds` hypothesis says existing row ids are below the next
fresh id, which is true of every store the engine builds. -/
theorem financial_status_drives_single_side_effect_path :
    ∀ (st : Store) (o : RemoteOrder) (st1 : Store) (oid : Nat),
      st.freshIds →
      st.orders.find? (fun so =>
        so.client_order_ref == productTag o.id && so.state != "cancel") = none →
      saveSingleOrder st o = .ok (st1, oid) →
      ((o.financial_status = "cancelled" →
        (∃ so, st1.orders = st.orders ++ [so] ∧ so.id = oid ∧ so.state = "cancel"
          ∧ so.client_order_ref = productTag o.id)
        ∧ st1.invoices = st.invoices)
      ∧ (o.financial_status = "paid" →
        ∃ so inv, st1.orders = st.orders ++ [so] ∧ so.id = oid ∧ so.state = "sale"
          ∧ so.client_order_ref = productTag o.id
          ∧ st1.invoices = st.invoices ++ [inv] ∧ inv.posted = true
          ∧ inv.partner_id = so.partner_id ∧ inv.invoice_origin = so.name
          ∧ inv.lines = (st1.orderLines.filter (fun l => l.order_id == oid)).map
              invoiceLineOfOrderLine
          ∧ inv.sent = st.config.send_invoice_on_payment
          ∧ (st.config.create_user_portal = false → st1.users = st.users)
          ∧ (st.config.create_user_portal = true →
              ∃ u ∈ st1.users, u.partner_id = so.partner_id ∧ u.active = true))
      ∧ (o.financial_status ≠ "cancelled" → o.financial_status ≠ "paid" →
        (∃ so, st1.orders = st.orders ++ [so] ∧ so.id = oid ∧ so.state = "draft"
          ∧ so.client_order_ref = productTag o.id)
        ∧ st1.invoices = st.invoices)) := by
  intro st o st1 oid hfresh hnone hsave
  simp only [saveSingleOrder, hnone] at hsave
  split at hsave
  · exact Except.noConfusion hsave
  case h_2 st3 heqL =>
    injection hsave with hpair
    rw [Prod.mk.injEq] at hpair
    obtain ⟨hst1, hoid⟩ := hpair
    subst hst1
    subst hoid
    obtain ⟨hLor, hLinv, hLus, hLcf, hLni, new, hLol⟩ :=
      createOrderLines_frame o.line_items _ _ st3 heqL
    have hso : st3.orders = st.orders ++
        [{ id := (getOrCreateCustomer st o).1.nextId,
           name := "S" ++ toString (getOrCreateCustomer st o).1.nextId,
           partner_id := (getOrCreateCustomer st o).2,
           client_order_ref := productTag o.id, origin := o.name, state := "draft",
           currency := o.currency }] := by
      rw [hLor]
      dsimp only
      rw [getOrCreateCustomer_orders]
    have hsinv : st3.invoices = st.invoices := by
      rw [hLinv]
      dsimp only
      rw [getOrCreateCustomer_invoices]
    have hsus : st3.users = st.users := by
      rw [hLus]
      dsimp only
      rw [getOrCreateCustomer_users]
    have hscf : st3.config = st.config := by
      rw [hLcf]
      dsimp only
      rw [getOrCreateCustomer_config]
    have hbase : ∀ x ∈ st.orders, x.id ≠ (getOrCreateCustomer st o).1.nextId := by
      intro x hx
      have h1 := hfresh.1 x hx
      have h2 := getOrCreateCustomer_nextId st o
      omega
    have hinv3 : ∀ x ∈ st3.invoices, x.id ≠ st3.nextId := by
      intro x hx
      rw [hsinv] at hx
      have h1 := hfresh.2 x hx
      have h2 := getOrCreateCustomer_nextId st o
      have h3 : (getOrCreateCustomer st o).1.nextId + 1 ≤ st3.nextId := by
        have := hLni
        dsimp only at this
        omega
      omega
    refine ⟨?_, ?_, ?_⟩
    · intro hc
      obtain ⟨ho, hi, hu, hl⟩ :=
        afs_cancelled st3 _ _ _ o st.orders _ hso rfl hbase hc
      exact ⟨⟨_, ho, rfl, rfl, rfl⟩, by rw [hi, hsinv]⟩
    · intro hp
      obtain ⟨ho, ⟨inv, hiv, hpos, hpar, hor, hsent, hlines⟩, holines, hufalse, hutrue⟩ :=
        afs_paid st3 _ _ _ o st.orders _ hso rfl hbase hinv3 hp
      refine ⟨_, inv, ho, rfl, rfl, rfl, ?_, hpos, ?_, ?_, ?_, ?_, ?_, ?_⟩
      · rw [hiv, hsinv]
      · exact hpar
      · exact hor
      · rw [holines, hLol]
        dsimp only
        rw [getOrCreateCustomer_orderLines]
        rw [hLol] at hlines
        dsimp only at hlines
        rw [getOrCreateCustomer_orderLines] at hlines
        exact hlines
      · rw [hscf] at hsent
        exact hsent
      · intro hx
        rw [← hscf] at hx
        rw [hufalse hx, hsus]
      · intro hx
        rw [← hscf] at hx
        exact hutrue hx
    · intro h1 h2
      obtain ⟨ho, hi, hu, hl⟩ := afs_other st3 _ _ _ o h1 h2
      rw [hso] at ho
      exact ⟨⟨_, ho, rfl, rfl, rfl⟩, by rw [hi, hsinv]⟩



/-- C6, witness: the paid path of the spec's concrete scenario (order 500,
financial status `paid`) on an empty store. -/
theorem financial_status_drives_single_side_effect_path_witness :
    ∃ st1 oid, saveSingleOrder {} remoteOrder500 = Except.ok (st1, oid)
      ∧ ∃ so inv, st1.orders = ({} : Store).orders ++ [so] ∧ so.id = oid ∧ so.state = "sale"
          ∧ so.client_order_ref = productTag remoteOrder500.id
          ∧ st1.invoices = ({} : Store).invoices ++ [inv] ∧ inv.posted = true
          ∧ inv.partner_id = so.partner_id ∧ inv.invoice_origin = so.name
          ∧ inv.lines = (st1.orderLines.filter (fun l => l.order_id == oid)).map
              invoiceLineOfOrderLine
          ∧ inv.sent = ({} : Store).config.send_invoice_on_payment
          ∧ (({} : Store).config.create_user_portal = false → st1.users = ({} : Store).users)
          ∧ (({} : Store).config.create_user_portal = true →
              ∃ u ∈ st1.users, u.partner_id = so.partner_id ∧ u.active = true) := by
  refine ⟨_, _, rfl, ?_⟩
  exact (financial_status_drives_single_side_effect_path {} remoteOrder500 _ _
    (by decide) (by decide) rfl).2.1 rfl


end Odoofy
